import Mathlib

/-!
Verification of the py-napcat JSON model layer.

This file is a shallow embedding of the decode/encode core of the
repository (the `Hcatbot/model/element.py` element pipeline and the
`py_napcat/model` event pipeline, which are the copies the claims cite),
together with theorems settling the specification claims.

Conventions of the embedding:
* decoded JSON values are `JValue`; Python `None` produced by `json.loads`
  for JSON `null` is `JValue.null`;
* raised Python exceptions are `PyErr` values and fallible code returns
  `Except PyErr α`;
* the library's `CustomError` hierarchy derives `BaseException`, not
  `Exception`, so an `except Exception` handler does NOT catch it; this is
  captured by `PyErr.isException`;
* exception messages are carried as plain strings; the quoting that
  Python's `str(KeyError(k))` adds around the key is dropped, and the
  rendering of containers in f-strings is abbreviated — no claim depends
  on those characters.
-/

/-- A decoded JSON value, as handed to the decoders by `json.loads`.
JSON numbers are modelled as integers only (the wire format of the
gateway uses no fractional numbers, and no decoder inspects floats). -/
inductive JValue where
  | str (s : String)
  | int (n : Int)
  | bool (b : Bool)
  | null
  | arr (elems : List JValue)
  | obj (fields : List (String × JValue))
deriving Repr, Inhabited

/-- The error taxonomy (`py_napcat/model/exception.py`) plus the Python
built-in exceptions the decoders can raise.  `CustomError` subclasses
`BaseException` directly, so the custom kinds are NOT `Exception`s.
`NonSerializableError` is imported by `meta_event.py` and
`notice_event.py` but its definition is absent from the copy of
`exception.py` in the sources; its constructor here is modelled from the
spec's error taxonomy (§4.1).  `recursionError` is an artifact of the
fuel-based embedding of the recursive element parser: the wrapper
`Element.parse_element` always supplies adequate fuel (see
`parseContentFuel_adequate` below), so that branch is dead code; it is
kept out of `PyErr.isException` so that fuel-monotonicity holds. -/
inductive PyErr where
  | keyError (key : String)
  | valueError (msg : String)
  | typeError (msg : String)
  | attributeError (msg : String)
  | assertionError
  | recursionError
  | parameterError (msg : String)
  | parseError (msg : String)
  | sendElementOnlyError (msg : String)
  | eventReceivedOnlyError (msg : String)
  | unregisteredEventError (msg : String)
  | unregisteredElementError (msg : String)
  | parserRegisteredError (msg : String)
  | nonSerializableError (msg : String)
deriving Repr, DecidableEq

/-- `isinstance(e, Exception)`: true exactly for the Python built-in
exceptions; the library's `CustomError` family derives `BaseException`
and is therefore not caught by `except Exception`. -/
def PyErr.isException : PyErr → Bool
  | .keyError _ => true
  | .valueError _ => true
  | .typeError _ => true
  | .attributeError _ => true
  | .assertionError => true
  | _ => false

/-- Association-list lookup on the fields of a JSON object (Python dict
keys are unique, so the first hit is the value). -/
def jlookup : List (String × JValue) → String → Option JValue
  | [], _ => none
  | (k, v) :: rest, key => if k = key then some v else jlookup rest key

/-- `d.get(k)` on a dict whose fields are `fs`: `None` both when the key
is absent and when the stored JSON value is `null` (Python cannot tell
the two apart through `.get`). -/
def jget (fs : List (String × JValue)) (k : String) : Option JValue :=
  match jlookup fs k with
  | some JValue.null => none
  | some v => some v
  | none => none

/-- `d[k]`: `KeyError` when the key is absent, `TypeError` when `d` is
not a dict. -/
def pyGetItem : JValue → String → Except PyErr JValue
  | .obj fs, k =>
    match jlookup fs k with
    | some v => .ok v
    | none => .error (.keyError k)
  | _, _ => .error (.typeError "value is not subscriptable by a string key")

/-- `str(v)` as used by f-string interpolation in the error messages and
text projections.  Containers are abbreviated (no claim inspects their
rendering). -/
def pyStr : JValue → String
  | .str s => s
  | .int n => toString n
  | .bool b => if b then "True" else "False"
  | .null => "None"
  | .arr _ => "[...]"
  | .obj _ => "\x7b...\x7d"

/-- Python truthiness, used by `VideoElementData.to_json` (`if self.thumb:`). -/
def pyTruthy : JValue → Bool
  | .str s => !(s == "")
  | .int n => !(n == 0)
  | .bool b => b
  | .null => false
  | .arr [] => false
  | .arr (_ :: _) => true
  | .obj [] => false
  | .obj (_ :: _) => true

/-- Iteration of a value by a `for`-comprehension: lists yield their
elements, strings their one-character substrings, dicts their keys;
other values raise `TypeError`. -/
def pyIterate : JValue → Except PyErr (List JValue)
  | .arr xs => .ok xs
  | .str s => .ok (s.toList.map fun c => JValue.str (String.singleton c))
  | .obj fs => .ok (fs.map fun p => JValue.str p.1)
  | _ => .error (.typeError "object is not iterable")

/-- The `ValueError` that the nested-data `from_json` methods raise when
a required key is absent (they convert the `KeyError` into a
`ValueError`). -/
def missingField (k : String) : PyErr := .valueError ("Missing required field: " ++ k)

def notSubscriptable : PyErr := .typeError "value is not subscriptable by a string key"

def noAttributeGet : PyErr := .attributeError "value has no attribute get"

/-! ## Element model (`Hcatbot/model/element.py`) -/

/-- The 15-value `ElementType` enum.  `at` is a Lean keyword, hence the
constructor name `at_`; its wire value is still `"at"`. -/
inductive ElementType where
  | text | at_ | reply | face | mface | dice | rps | poke
  | image | record | video | file | json | music | forward
deriving Repr, DecidableEq

def ElementType.value : ElementType → String
  | .text => "text"
  | .at_ => "at"
  | .reply => "reply"
  | .face => "face"
  | .mface => "mface"
  | .dice => "dice"
  | .rps => "rps"
  | .poke => "poke"
  | .image => "image"
  | .record => "record"
  | .video => "video"
  | .file => "file"
  | .json => "json"
  | .music => "music"
  | .forward => "forward"

/-- `ElementType(v)` for a wire value: `none` plays the role of the
`ValueError` the Enum constructor raises (non-strings are never a member
value). -/
def ElementType.ofJValue : JValue → Option ElementType
  | .str "text" => some .text
  | .str "at" => some .at_
  | .str "reply" => some .reply
  | .str "face" => some .face
  | .str "mface" => some .mface
  | .str "dice" => some .dice
  | .str "rps" => some .rps
  | .str "poke" => some .poke
  | .str "image" => some .image
  | .str "record" => some .record
  | .str "video" => some .video
  | .str "file" => some .file
  | .str "json" => some .json
  | .str "music" => some .music
  | .str "forward" => some .forward
  | _ => none

structure TextElementData where
  text : String
deriving Repr, DecidableEq

structure AtElementData where
  target_user_id : String
deriving Repr, DecidableEq

structure ReplyElementData where
  target_message_id : String
deriving Repr, DecidableEq

/-- `raw`, `result_id` and `chain_count` are stored unvalidated from
`.get` (receive-only, optional). -/
structure FaceElementData where
  id : String
  raw : Option JValue
  result_id : Option JValue
  chain_count : Option JValue
deriving Repr

/-- `summary` is send-only: `from_json` never sets it. -/
structure MFaceElementData where
  emoji_id : String
  emoji_package_id : String
  key : Option JValue
  summary : Option JValue
deriving Repr

/-- `result` is typed `Optional[str]` in the source but stored
unvalidated (no assert), so it is kept as a JSON value here. -/
structure DiceElementData where
  result : Option JValue
deriving Repr

inductive RPSResult where
  | cloth | shears | stone
deriving Repr, DecidableEq

/-- Wire mapping of `RPSElement.RPSResult`: "1" is CLOTH, "2" SHEARS,
"3" STONE in this implementation. -/
def RPSResult.ofJValue : JValue → Option RPSResult
  | .str "1" => some .cloth
  | .str "2" => some .shears
  | .str "3" => some .stone
  | _ => none

/-- `Enum.name` of the member, used by the RPS text projection. -/
def RPSResult.name : RPSResult → String
  | .cloth => "CLOTH"
  | .shears => "SHEARS"
  | .stone => "STONE"

structure RPSElementData where
  result : Option RPSResult
deriving Repr, DecidableEq

structure PokeElementData where
  type : String
  id : String
deriving Repr, DecidableEq

structure ImageElementData where
  file : String
  url : Option JValue
  summary : Option JValue
  sub_type : Option JValue
  file_size : Option JValue
  key : Option JValue
  emoji_id : Option JValue
  emoji_package_id : Option JValue
deriving Repr

structure RecordElementData where
  file : String
  file_size : Option JValue
  path : Option JValue
deriving Repr

structure VideoElementData where
  file : String
  url : Option JValue
  file_size : Option JValue
  thumb : Option JValue
deriving Repr

structure FileElementData where
  file : String
  file_id : Option JValue
  file_size : Option JValue
  name : Option JValue
deriving Repr

structure JsonElementData where
  data : String
deriving Repr, DecidableEq

inductive MusicPlatform where
  | qq | wangYi | kuGou | kuWo | miGu | custom
deriving Repr, DecidableEq

def MusicPlatform.value : MusicPlatform → String
  | .qq => "qq"
  | .wangYi => "163"
  | .kuGou => "kugou"
  | .kuWo => "kuwo"
  | .miGu => "migu"
  | .custom => "custom"

/-- Send-only payload: never produced by decoding. -/
structure MusicElementData where
  platform_type : MusicPlatform
  id : Option String
  url : Option String
  image : Option String
  singer : Option String
  title : Option String
  content : Option String
deriving Repr, DecidableEq

/-- The `Element` sum: each variant couples the registered
`element_type` with its payload.  `ForwardElement`'s payload is inlined
(`id` plus the optional recursively-parsed children) so that the nested
recursion through `Option (List Element)` stays a plain nested
inductive. -/
inductive Element where
  | text (d : TextElementData)
  | at_ (d : AtElementData)
  | reply (d : ReplyElementData)
  | face (d : FaceElementData)
  | mface (d : MFaceElementData)
  | dice (d : DiceElementData)
  | rps (d : RPSElementData)
  | poke (d : PokeElementData)
  | image (d : ImageElementData)
  | record (d : RecordElementData)
  | video (d : VideoElementData)
  | file (d : FileElementData)
  | json (d : JsonElementData)
  | music (d : MusicElementData)
  | forward (id : String) (content : Option (List Element))
deriving Repr

def Element.element_type : Element → ElementType
  | .text _ => .text
  | .at_ _ => .at_
  | .reply _ => .reply
  | .face _ => .face
  | .mface _ => .mface
  | .dice _ => .dice
  | .rps _ => .rps
  | .poke _ => .poke
  | .image _ => .image
  | .record _ => .record
  | .video _ => .video
  | .file _ => .file
  | .json _ => .json
  | .music _ => .music
  | .forward _ _ => .forward

/-! ### Per-variant `from_json` on the `data` sub-object.

Each mirrors the Python `XElementData.from_json` classmethod: a missing
required key raises `KeyError`, converted by the method's own handler to
`ValueError` (`missingField`); the dataclass `__post_init__` asserts the
required fields' types, raising `AssertionError`; calling `d[k]` on a
non-dict raises `TypeError`, which the handler does not catch. -/

def TextElementData.from_json : JValue → Except PyErr TextElementData
  | .obj fs =>
    match jlookup fs "text" with
    | none => .error (missingField "text")
    | some (.str s) => .ok ⟨s⟩
    | some _ => .error .assertionError
  | _ => .error notSubscriptable

def AtElementData.from_json : JValue → Except PyErr AtElementData
  | .obj fs =>
    match jlookup fs "qq" with
    | none => .error (missingField "qq")
    | some (.str s) => .ok ⟨s⟩
    | some _ => .error .assertionError
  | _ => .error notSubscriptable

def ReplyElementData.from_json : JValue → Except PyErr ReplyElementData
  | .obj fs =>
    match jlookup fs "id" with
    | none => .error (missingField "id")
    | some (.str s) => .ok ⟨s⟩
    | some _ => .error .assertionError
  | _ => .error notSubscriptable

def FaceElementData.from_json : JValue → Except PyErr FaceElementData
  | .obj fs =>
    match jlookup fs "id" with
    | none => .error (missingField "id")
    | some (.str s) => .ok ⟨s, jget fs "raw", jget fs "resultId", jget fs "chainCount"⟩
    | some _ => .error .assertionError
  | _ => .error notSubscriptable

def MFaceElementData.from_json : JValue → Except PyErr MFaceElementData
  | .obj fs =>
    match jlookup fs "emojiId" with
    | none => .error (missingField "emojiId")
    | some ev =>
      match jlookup fs "emojiPackageId" with
      | none => .error (missingField "emojiPackageId")
      | some pv =>
        match ev, pv with
        | .str es, .str ps => .ok ⟨es, ps, jget fs "key", none⟩
        | _, _ => .error .assertionError
  | _ => .error notSubscriptable

def DiceElementData.from_json : JValue → Except PyErr DiceElementData
  | .obj fs =>
    match jlookup fs "result" with
    | none => .error (missingField "result")
    | some JValue.null => .ok ⟨none⟩
    | some v => .ok ⟨some v⟩
  | _ => .error notSubscriptable

/-- `RPSElementData.from_json` additionally converts the Enum
`ValueError` into its own `ValueError` message. -/
def RPSElementData.from_json : JValue → Except PyErr RPSElementData
  | .obj fs =>
    match jlookup fs "result" with
    | none => .error (missingField "result")
    | some v =>
      match RPSResult.ofJValue v with
      | some r => .ok ⟨some r⟩
      | none => .error (.valueError ("Result not in dict: " ++ pyStr v))
  | _ => .error notSubscriptable

def PokeElementData.from_json : JValue → Except PyErr PokeElementData
  | .obj fs =>
    match jlookup fs "type" with
    | none => .error (missingField "type")
    | some tv =>
      match jlookup fs "id" with
      | none => .error (missingField "id")
      | some iv =>
        match tv, iv with
        | .str ts, .str is => .ok ⟨ts, is⟩
        | _, _ => .error .assertionError
  | _ => .error notSubscriptable

def ImageElementData.from_json : JValue → Except PyErr ImageElementData
  | .obj fs =>
    match jlookup fs "file" with
    | none => .error (missingField "file")
    | some (.str s) =>
      .ok ⟨s, jget fs "url", jget fs "summary", jget fs "sub_type", jget fs "file_size",
            jget fs "key", jget fs "emoji_id", jget fs "emoji_package_id"⟩
    | some _ => .error .assertionError
  | _ => .error notSubscriptable

def RecordElementData.from_json : JValue → Except PyErr RecordElementData
  | .obj fs =>
    match jlookup fs "file" with
    | none => .error (missingField "file")
    | some (.str s) => .ok ⟨s, jget fs "file_size", jget fs "path"⟩
    | some _ => .error .assertionError
  | _ => .error notSubscriptable

def VideoElementData.from_json : JValue → Except PyErr VideoElementData
  | .obj fs =>
    match jlookup fs "file" with
    | none => .error (missingField "file")
    | some (.str s) => .ok ⟨s, jget fs "url", jget fs "file_size", none⟩
    | some _ => .error .assertionError
  | _ => .error notSubscriptable

def FileElementData.from_json : JValue → Except PyErr FileElementData
  | .obj fs =>
    match jlookup fs "file" with
    | none => .error (missingField "file")
    | some (.str s) => .ok ⟨s, jget fs "file_id", jget fs "file_size", none⟩
    | some _ => .error .assertionError
  | _ => .error notSubscriptable

def JsonElementData.from_json : JValue → Except PyErr JsonElementData
  | .obj fs =>
    match jlookup fs "data" with
    | none => .error (missingField "data")
    | some (.str s) => .ok ⟨s⟩
    | some _ => .error .assertionError
  | _ => .error notSubscriptable

/-- `MusicElement.from_json` (and `MusicElementData.from_json`)
unconditionally raise: the music-share element is send-only. -/
def MusicElement.from_json (_ : JValue) : Except PyErr Element :=
  .error (.sendElementOnlyError "This element can not be received")

/-! ### Per-variant `to_json` (encode direction). -/

def optField (k : String) : Option JValue → List (String × JValue)
  | none => []
  | some v => [(k, v)]

def TextElementData.to_json (d : TextElementData) : JValue :=
  .obj [("text", .str d.text)]

def AtElementData.to_json (d : AtElementData) : JValue :=
  .obj [("qq", .str d.target_user_id)]

def ReplyElementData.to_json (d : ReplyElementData) : JValue :=
  .obj [("id", .str d.target_message_id)]

def FaceElementData.to_json (d : FaceElementData) : JValue :=
  .obj [("id", .str d.id)]

/-- `asdict` filtered on non-None values: the emitted keys are the
dataclass field names (snake case), not the camel-case wire keys that
`from_json` reads. -/
def MFaceElementData.to_json (d : MFaceElementData) : JValue :=
  .obj ([("emoji_id", .str d.emoji_id), ("emoji_package_id", .str d.emoji_package_id)]
        ++ optField "key" d.key ++ optField "summary" d.summary)

def DiceElementData.to_json (_ : DiceElementData) : JValue := .obj []

def RPSElementData.to_json (_ : RPSElementData) : JValue := .obj []

def PokeElementData.to_json (d : PokeElementData) : JValue :=
  .obj [("type", .str d.type), ("id", .str d.id)]

def ImageElementData.to_json (d : ImageElementData) : JValue :=
  .obj ([("file", .str d.file)] ++ optField "url" d.url
        ++ optField "summary" d.summary ++ optField "sub_type" d.sub_type)

def RecordElementData.to_json (d : RecordElementData) : JValue :=
  .obj [("file", .str d.file)]

def VideoElementData.to_json (d : VideoElementData) : JValue :=
  .obj ([("file", .str d.file)]
        ++ (match d.thumb with
            | some v => if pyTruthy v then [("thumb", v)] else []
            | none => []))

def FileElementData.to_json (d : FileElementData) : JValue :=
  .obj ([("file", .str d.file)] ++ optField "name" d.name)

def JsonElementData.to_json (d : JsonElementData) : JValue :=
  .obj [("data", .str d.data)]

def optStrField (k : String) : Option String → List (String × JValue)
  | none => []
  | some s => [(k, .str s)]

/-- Send-only encode; `url`/`image` are emitted unconditionally for the
CUSTOM platform (as `data["url"] = self.url` does, even for None). -/
def MusicElementData.to_json (d : MusicElementData) : JValue :=
  .obj ([("type", .str d.platform_type.value)]
        ++ (if d.platform_type = MusicPlatform.custom then
              [("url", match d.url with | some s => .str s | none => .null),
               ("image", match d.image with | some s => .str s | none => .null)]
              ++ optStrField "singer" d.singer ++ optStrField "title" d.title
              ++ optStrField "content" d.content
            else
              [("id", match d.id with | some s => .str s | none => .null)]))

/-- The `data` half of `Element.to_json`. -/
def Element.data_to_json : Element → JValue
  | .text d => d.to_json
  | .at_ d => d.to_json
  | .reply d => d.to_json
  | .face d => d.to_json
  | .mface d => d.to_json
  | .dice d => d.to_json
  | .rps d => d.to_json
  | .poke d => d.to_json
  | .image d => d.to_json
  | .record d => d.to_json
  | .video d => d.to_json
  | .file d => d.to_json
  | .json d => d.to_json
  | .music d => d.to_json
  | .forward id _ => .obj [("id", .str id)]

/-- `Element.to_json`. -/
def Element.to_json (e : Element) : JValue :=
  .obj [("type", .str e.element_type.value), ("data", e.data_to_json)]

/-- `str(opt)` for an optional stored JSON value (f-string rendering;
`None` when absent). -/
def optStr : Option JValue → String
  | none => "None"
  | some v => pyStr v

/-- The per-variant text projection (`Element.text` properties).  It can
raise: an `RPSElement` built for sending has `result = None` and
`result.name` raises `AttributeError`; a `faceText` value that is
neither `null` nor a string makes the face branch fail with `TypeError`
(CPython raises the `TypeError` at `len(text)` for numbers and at the
enclosing `join` for containers; the message-text context in which the
claims use the projection observes the same error either way). -/
def Element.textE : Element → Except PyErr String
  | .text d => .ok d.text
  | .at_ d => .ok ("@" ++ d.target_user_id)
  | .reply d => .ok ("[回复](" ++ d.target_message_id ++ ")")
  | .face d =>
    match d.raw with
    | some (.obj fs) =>
      match jget fs "faceText" with
      | some (.str t) => if 0 < t.length then .ok t else .ok ("[表情](" ++ d.id ++ ")")
      | some _ => .error (.typeError "faceText is not a string")
      | none => .ok ("[表情](" ++ d.id ++ ")")
    | _ => .ok ("[表情](" ++ d.id ++ ")")
  | .mface d =>
    match d.summary with
    | some v => .ok (pyStr v)
    | none => .ok ("[表情](" ++ d.emoji_id ++ ")")
  | .dice d => .ok ("[骰子](" ++ optStr d.result ++ ")")
  | .rps d =>
    match d.result with
    | some r => .ok ("[石头剪刀布](" ++ r.name ++ ")")
    | none => .error (.attributeError "NoneType has no attribute name")
  | .poke _ => .ok "[戳一戳]"
  | .image d =>
    match d.summary with
    | some (.str s) => if s == "" then .ok "[图片]" else .ok s
    | some v => .ok (pyStr v)
    | none => .ok "[图片]"
  | .record _ => .ok "[语音]"
  | .video _ => .ok "[视频]"
  | .file _ => .ok "[文件]"
  | .json _ => .ok "[JSON]"
  | .music _ => .ok "音乐分享"
  | .forward _ _ => .ok "[合并消息]"

/-! ### The recursive element parser.

`Element.parse_element` recurses through `ForwardElement` content, so
the embedding drives the recursion with a fuel parameter (structural,
hence kernel-computable) and then supplies provably adequate fuel in the
`parse_element` wrapper.  The registry `Element._element_registry` holds
all 15 classes once the module is imported (each `@register_element`
decorator runs at import; the decorator overwrites silently, see
`Element.register_element` below), so the dispatch below is total and
the `UnregisteredElementError` branch of the source is dead code. -/

/-- The `except Exception as e: raise ParseError(msg)` boundary of every
registry dispatch: only Python built-in exceptions are caught, the
library's own `CustomError` family passes through. -/
def wrapDispatch {α : Type} (msg : String) : Except PyErr α → Except PyErr α
  | .error e => if e.isException then .error (.parseError msg) else .error e
  | .ok a => .ok a

mutual

/-- `Element.parse_element` at a given fuel. -/
def parseElementFuel : Nat → JValue → Except PyErr Element
  | 0, _ => .error .recursionError
  | Nat.succ fuel, d =>
    match d with
    | .obj fs =>
      match jlookup fs "type" with
      | none => .error (.parameterError "Missing required field: type")
      | some tv =>
        match ElementType.ofJValue tv with
        | none => .error (.parameterError ("Unknown element type: " ++ pyStr tv))
        | some et =>
          match jlookup fs "data" with
          | none => .error (.parameterError "Missing required field: data")
          | some ed =>
            wrapDispatch ("Failed to parse " ++ et.value ++ " element")
              (match et with
               | .text => (TextElementData.from_json ed).map Element.text
               | .at_ => (AtElementData.from_json ed).map Element.at_
               | .reply => (ReplyElementData.from_json ed).map Element.reply
               | .face => (FaceElementData.from_json ed).map Element.face
               | .mface => (MFaceElementData.from_json ed).map Element.mface
               | .dice => (DiceElementData.from_json ed).map Element.dice
               | .rps => (RPSElementData.from_json ed).map Element.rps
               | .poke => (PokeElementData.from_json ed).map Element.poke
               | .image => (ImageElementData.from_json ed).map Element.image
               | .record => (RecordElementData.from_json ed).map Element.record
               | .video => (VideoElementData.from_json ed).map Element.video
               | .file => (FileElementData.from_json ed).map Element.file
               | .json => (JsonElementData.from_json ed).map Element.json
               | .music => MusicElement.from_json ed
               | .forward =>
                 -- ForwardElement.ForwardElementData.from_json: reads the
                 -- optional content FIRST (parsing every entry), then the
                 -- required id.
                 match ed with
                 | .obj efs =>
                   match jget efs "content" with
                   | none =>
                     match jlookup efs "id" with
                     | none => .error (missingField "id")
                     | some (.str s) => .ok (Element.forward s none)
                     | some _ => .error .assertionError
                   | some c =>
                     match pyIterate c with
                     | .error e => .error e
                     | .ok items =>
                       match parseContentFuel fuel items with
                       | .error e => .error e
                       | .ok children =>
                         match jlookup efs "id" with
                         | none => .error (missingField "id")
                         | some (.str s) => .ok (Element.forward s (some children))
                         | some _ => .error .assertionError
                 | _ => .error noAttributeGet)
    | _ => .error notSubscriptable

/-- The list comprehension `[Element.parse_element(x) for x in content]`
at a given fuel; the fuel also decreases along the list so that the
mutual recursion is structural on the fuel. -/
def parseContentFuel : Nat → List JValue → Except PyErr (List Element)
  | _, [] => .ok []
  | 0, _ :: _ => .error .recursionError
  | Nat.succ fuel, x :: xs =>
    match parseElementFuel fuel x with
    | .error e => .error e
    | .ok e =>
      match parseContentFuel fuel xs with
      | .error e2 => .error e2
      | .ok es => .ok (e :: es)

end

mutual

/-- Structural size of a JSON value, used to derive an always-adequate
fuel for `parse_element`. -/
def JValue.size : JValue → Nat
  | .str _ => 1
  | .int _ => 1
  | .bool _ => 1
  | .null => 1
  | .arr xs => JValue.sizeL xs + 1
  | .obj fs => JValue.sizeF fs + 1

def JValue.sizeL : List JValue → Nat
  | [] => 0
  | x :: xs => JValue.size x + JValue.sizeL xs + 1

def JValue.sizeF : List (String × JValue) → Nat
  | [] => 0
  | (_, v) :: fs => JValue.size v + JValue.sizeF fs + 1

end

/-- `Element.parse_element(data)`.  The fuel `d.size` is adequate: the
recursion of the source only descends into values nested inside `d`
(see `parseContentFuel_of_mapM_ok` and `parseElementFuel_mono`). -/
def Element.parse_element (d : JValue) : Except PyErr Element :=
  parseElementFuel d.size d

theorem parseContentFuel_nil (f : Nat) : parseContentFuel f [] = .ok [] := by
  cases f <;> rfl

theorem jlookup_size_lt {fs : List (String × JValue)} {k : String} {v : JValue}
    (h : jlookup fs k = some v) : v.size < JValue.sizeF fs := by
  induction fs with
  | nil => simp [jlookup] at h
  | cons kv rest ih =>
    obtain ⟨k1, v1⟩ := kv
    rw [jlookup] at h
    by_cases hk : k1 = k
    · simp only [hk, if_pos rfl] at h
      cases h
      simp [JValue.sizeF]
      omega
    · simp only [if_neg hk] at h
      have := ih h
      simp [JValue.sizeF]
      omega

theorem jget_eq_some {fs : List (String × JValue)} {k : String} {v : JValue}
    (h : jget fs k = some v) : jlookup fs k = some v := by
  unfold jget at h
  cases hl : jlookup fs k with
  | none => rw [hl] at h; cases h
  | some w =>
    rw [hl] at h
    cases w <;> simp at h <;> simp [h]

/-- Fuel monotonicity: a result other than the fuel-exhaustion marker is
stable under any larger fuel.  This is what makes the fuel embedding
equal to the unbounded Python recursion on every input the claims
quantify over. -/
theorem parseFuel_mono (n : Nat) :
    (∀ d r, parseElementFuel n d = r → r ≠ Except.error PyErr.recursionError →
       ∀ g, n ≤ g → parseElementFuel g d = r) ∧
    (∀ xs r, parseContentFuel n xs = r → r ≠ Except.error PyErr.recursionError →
       ∀ g, n ≤ g → parseContentFuel g xs = r) := by
  induction n with
  | zero =>
    constructor
    · intro d r h hne g _
      rw [show parseElementFuel 0 d = Except.error PyErr.recursionError from rfl] at h
      exact absurd h.symm hne
    · intro xs r h hne g _
      cases xs with
      | nil =>
        rw [parseContentFuel_nil] at h
        rw [parseContentFuel_nil]
        exact h
      | cons x xs =>
        rw [show parseContentFuel 0 (x :: xs) = Except.error PyErr.recursionError from rfl] at h
        exact absurd h.symm hne
  | succ n ih =>
    constructor
    · intro d r h hne g hg
      obtain ⟨g1, rfl⟩ : ∃ g1, g = Nat.succ g1 := ⟨g - 1, by omega⟩
      cases d with
      | str s => exact h
      | int m => exact h
      | bool b => exact h
      | null => exact h
      | arr xs => exact h
      | obj fs =>
        simp only [parseElementFuel] at h ⊢
        cases hT : jlookup fs "type" with
        | none => simp only [hT] at h; exact h
        | some tv =>
          dsimp only
          simp only [hT] at h
          cases hE : ElementType.ofJValue tv with
          | none => simp only [hE] at h; exact h
          | some et =>
            dsimp only
            simp only [hE] at h
            cases hD : jlookup fs "data" with
            | none => simp only [hD] at h; exact h
            | some ed =>
              dsimp only
              simp only [hD] at h
              cases et <;> try exact h
              case forward =>
                cases ed <;> try exact h
                case obj efs =>
                  dsimp only at h ⊢
                  cases hC : jget efs "content" with
                  | none => simp only [hC] at h; exact h
                  | some c =>
                    dsimp only
                    simp only [hC] at h
                    cases hI : pyIterate c with
                    | error e => simp only [hI] at h; exact h
                    | ok items =>
                      dsimp only
                      simp only [hI] at h
                      cases hR : parseContentFuel n items with
                      | error e =>
                        simp only [hR] at h
                        by_cases he : e = PyErr.recursionError
                        · subst he
                          exact absurd (h.symm.trans (by rfl)) hne
                        · have hmono := ih.2 items (Except.error e) hR
                            (by simp [he]) g1 (by omega)
                          rw [hmono]
                          exact h
                      | ok children =>
                        simp only [hR] at h
                        have hmono := ih.2 items (Except.ok children) hR
                          (by simp) g1 (by omega)
                        rw [hmono]
                        exact h
    · intro xs r h hne g hg
      obtain ⟨g1, rfl⟩ : ∃ g1, g = Nat.succ g1 := ⟨g - 1, by omega⟩
      cases xs with
      | nil =>
        rw [parseContentFuel_nil] at h
        rw [parseContentFuel_nil]
        exact h
      | cons x xs =>
        simp only [parseContentFuel] at h ⊢
        cases hX : parseElementFuel n x with
        | error e =>
          simp only [hX] at h
          by_cases he : e = PyErr.recursionError
          · subst he
            exact absurd (h.symm.trans (by rfl)) hne
          · have hmono := ih.1 x (Except.error e) hX (by simp [he]) g1 (by omega)
            rw [hmono]
            exact h
        | ok e =>
          simp only [hX] at h
          have hmonoX := ih.1 x (Except.ok e) hX (by simp) g1 (by omega)
          rw [hmonoX]
          dsimp only
          cases hXS : parseContentFuel n xs with
          | error e2 =>
            simp only [hXS] at h
            by_cases he : e2 = PyErr.recursionError
            · subst he
              exact absurd (h.symm.trans (by rfl)) hne
            · have hmono := ih.2 xs (Except.error e2) hXS (by simp [he]) g1 (by omega)
              rw [hmono]
              exact h
          | ok es =>
            simp only [hXS] at h
            have hmono := ih.2 xs (Except.ok es) hXS (by simp) g1 (by omega)
            rw [hmono]
            exact h

/-- When every entry of a list parses successfully with its own derived
fuel, the in-recursion parse of the list at any fuel bounding the list's
size yields the same results, in order. -/
theorem parseContentFuel_of_mapM_ok :
    ∀ (xs : List JValue) (es : List Element) (fuel : Nat),
      JValue.sizeL xs ≤ fuel →
      xs.mapM Element.parse_element = .ok es →
      parseContentFuel fuel xs = .ok es := by
  intro xs
  induction xs with
  | nil =>
    intro es fuel _ h
    simp only [List.mapM_nil, pure, Except.pure] at h
    cases h
    exact parseContentFuel_nil fuel
  | cons x xs ih =>
    intro es fuel hsz h
    simp only [List.mapM_cons, pure, Except.pure, bind, Except.bind] at h
    cases hx : Element.parse_element x with
    | error e => simp only [hx] at h; cases h
    | ok e =>
      simp only [hx] at h
      cases hxs : List.mapM Element.parse_element xs with
      | error e2 => simp only [hxs] at h; cases h
      | ok es2 =>
        simp only [hxs] at h
        cases h
        have hfs : JValue.size x + JValue.sizeL xs + 1 ≤ fuel := by
          simpa [JValue.sizeL] using hsz
        obtain ⟨f1, rfl⟩ : ∃ f1, fuel = Nat.succ f1 := ⟨fuel - 1, by omega⟩
        simp only [parseContentFuel]
        have hx1 : parseElementFuel f1 x = Except.ok e :=
          (parseFuel_mono x.size).1 x (Except.ok e) hx (by simp) f1 (by omega)
        rw [hx1]
        have hxs1 : parseContentFuel f1 xs = Except.ok es2 :=
          ih es2 f1 (by omega) hxs
        rw [hxs1]

/-! ## Event model (`py_napcat/model`), senders and dispatch. -/

/-- `assert isinstance(x, int)` on a stored JSON value (a failed
dataclass `__post_init__` assert raises `AssertionError`). -/
def asInt : JValue → Except PyErr Int
  | .int n => .ok n
  | _ => .error .assertionError

/-- `assert isinstance(x, str)`. -/
def asStr : JValue → Except PyErr String
  | .str s => .ok s
  | _ => .error .assertionError

/-- `d.get(k)` where a non-dict raises `AttributeError`. -/
def pyGetOpt : JValue → String → Except PyErr (Option JValue)
  | .obj fs, k => .ok (jget fs k)
  | _, _ => .error noAttributeGet

/-- The `except KeyError` / `except ValueError` pair wrapped around the
whole constructor call of every event `from_json`; `vmsg` is the prefix
of the `ValueError` re-raise (`"Invalid event type: "` in the py_napcat
events, `"Invalid sub type: "` in most Hcatbot notice events).  Any
other error — including the library's own `CustomError` kinds and
`AssertionError` — passes through. -/
def handleKV {α : Type} (vmsg : String) : Except PyErr α → Except PyErr α
  | .error (.keyError k) => .error (.parameterError ("Missing required field: " ++ k))
  | .error (.valueError m) => .error (.parameterError (vmsg ++ m))
  | r => r

/-- The `except KeyError`-only handler used by the notice events that
convert no `ValueError`. -/
def handleK {α : Type} : Except PyErr α → Except PyErr α
  | .error (.keyError k) => .error (.parameterError ("Missing required field: " ++ k))
  | r => r

inductive PostType where
  | meta | message | message_sent | notice | request
deriving Repr, DecidableEq

def PostType.value : PostType → String
  | .meta => "meta_event"
  | .message => "message"
  | .message_sent => "message_sent"
  | .notice => "notice"
  | .request => "request"

/-- `PostType(v)`: `ValueError` when `v` is not a member value. -/
def PostType.ofJValue : JValue → Except PyErr PostType
  | .str "meta_event" => .ok .meta
  | .str "message" => .ok .message
  | .str "message_sent" => .ok .message_sent
  | .str "notice" => .ok .notice
  | .str "request" => .ok .request
  | v => .error (.valueError (pyStr v ++ " is not a valid PostType"))

inductive MessageType where
  | group | private_
deriving Repr, DecidableEq

def MessageType.value : MessageType → String
  | .group => "group"
  | .private_ => "private"

def MessageType.ofJValue : JValue → Except PyErr MessageType
  | .str "group" => .ok .group
  | .str "private" => .ok .private_
  | v => .error (.valueError (pyStr v ++ " is not a valid MessageType"))

inductive UserSex where
  | male | female | unknown
deriving Repr, DecidableEq

def UserSex.value : UserSex → String
  | .male => "male"
  | .female => "female"
  | .unknown => "unknown"

def UserSex.ofJValue : JValue → Except PyErr UserSex
  | .str "male" => .ok .male
  | .str "female" => .ok .female
  | .str "unknown" => .ok .unknown
  | v => .error (.valueError (pyStr v ++ " is not a valid UserSex"))

inductive UserRole where
  | owner | admin | member
deriving Repr, DecidableEq

def UserRole.value : UserRole → String
  | .owner => "owner"
  | .admin => "admin"
  | .member => "member"

def UserRole.ofJValue : JValue → Except PyErr UserRole
  | .str "owner" => .ok .owner
  | .str "admin" => .ok .admin
  | .str "member" => .ok .member
  | v => .error (.valueError (pyStr v ++ " is not a valid UserRole"))

/-- `FriendSender` (`py_napcat/model/sender.py`): plain class, no type
validation of `user_id`/`nickname` — they are stored as read. -/
structure FriendSender where
  user_id : JValue
  nickname : JValue
  sex : UserSex
  group_id : Option JValue
deriving Repr

/-- `FriendSender.from_json`: raises bare `KeyError` on a missing
required key (no handler of its own) and `ValueError` from `UserSex`. -/
def FriendSender.from_json : JValue → Except PyErr FriendSender
  | .obj fs =>
    match jlookup fs "user_id" with
    | none => .error (.keyError "user_id")
    | some uid =>
      match jlookup fs "nickname" with
      | none => .error (.keyError "nickname")
      | some nick =>
        match jlookup fs "sex" with
        | none => .error (.keyError "sex")
        | some sv =>
          match UserSex.ofJValue sv with
          | .error e => .error e
          | .ok sex => .ok ⟨uid, nick, sex, jget fs "group_id"⟩
  | _ => .error notSubscriptable

/-- `FriendSender.to_json`: emits `user_id`, `nickname`, `sex` and the
optional `group_id` when present. -/
def FriendSender.to_json (s : FriendSender) : JValue :=
  .obj ([("user_id", s.user_id), ("nickname", s.nickname), ("sex", .str s.sex.value)]
        ++ optField "group_id" s.group_id)

structure GroupSender where
  user_id : JValue
  nickname : JValue
  sex : UserSex
  role : UserRole
  card : Option JValue
deriving Repr

/-- `GroupSender.from_json`: required `user_id`, `nickname`, `sex`,
`role`; optional `card`. -/
def GroupSender.from_json : JValue → Except PyErr GroupSender
  | .obj fs =>
    match jlookup fs "user_id" with
    | none => .error (.keyError "user_id")
    | some uid =>
      match jlookup fs "nickname" with
      | none => .error (.keyError "nickname")
      | some nick =>
        match jlookup fs "sex" with
        | none => .error (.keyError "sex")
        | some sv =>
          match UserSex.ofJValue sv with
          | .error e => .error e
          | .ok sex =>
            match jlookup fs "role" with
            | none => .error (.keyError "role")
            | some rv =>
              match UserRole.ofJValue rv with
              | .error e => .error e
              | .ok role => .ok ⟨uid, nick, sex, role, jget fs "card"⟩
  | _ => .error notSubscriptable

/-- `GroupSender.to_json` (`py_napcat/model/sender.py` lines 63-72): it
builds and returns the wire dict — it does not raise. -/
def GroupSender.to_json (s : GroupSender) : JValue :=
  .obj ([("user_id", s.user_id), ("nickname", s.nickname), ("sex", .str s.sex.value),
         ("role", .str s.role.value)] ++ optField "card" s.card)

inductive GroupMessageSubType where
  | normal | anonymous | notice
deriving Repr, DecidableEq

def GroupMessageSubType.ofJValue : JValue → Except PyErr GroupMessageSubType
  | .str "normal" => .ok .normal
  | .str "anonymous" => .ok .anonymous
  | .str "notice" => .ok .notice
  | v => .error (.valueError (pyStr v ++ " is not a valid GroupMessageType"))

inductive FriendMessageSubType where
  | friend | group
deriving Repr, DecidableEq

def FriendMessageSubType.ofJValue : JValue → Except PyErr FriendMessageSubType
  | .str "friend" => .ok .friend
  | .str "group" => .ok .group
  | v => .error (.valueError (pyStr v ++ " is not a valid FriendMessageType"))

/-- `GroupMessageEvent`.  `time` and `self_id` stay unvalidated JSON
values: `MessageEvent.__post_init__` does not call
`BasicEvent.__post_init__`, so the base `isinstance(int)` asserts never
run for message events. -/
structure GroupMessageEvent where
  time : JValue
  self_id : JValue
  post_type : PostType
  message_type : MessageType
  message_id : Int
  user_id : Int
  font : Int
  message : List Element
  raw_message : String
  sub_type : GroupMessageSubType
  group_id : Int
  sender : GroupSender
deriving Repr

structure FriendMessageEvent where
  time : JValue
  self_id : JValue
  post_type : PostType
  message_type : MessageType
  message_id : Int
  user_id : Int
  font : Int
  message : List Element
  raw_message : String
  sub_type : FriendMessageSubType
  sender : FriendSender
  target_id : Option JValue
  temp_source : Option JValue
deriving Repr

/-- `GroupMessageEvent.from_json`: the constructor arguments are
evaluated left-to-right exactly as in the source call (so a failure in a
later argument is only reached when every earlier one succeeded), then
the dataclass asserts run (all raising the same `AssertionError`). -/
def GroupMessageEvent.from_json (d : JValue) : Except PyErr GroupMessageEvent :=
  handleKV "Invalid event type: " (do
    let timev ← pyGetItem d "time"
    let ptv ← pyGetItem d "post_type"
    let pt ← PostType.ofJValue ptv
    let selfv ← pyGetItem d "self_id"
    let mtv ← pyGetItem d "message_type"
    let mt ← MessageType.ofJValue mtv
    let midv ← pyGetItem d "message_id"
    let uidv ← pyGetItem d "user_id"
    let fontv ← pyGetItem d "font"
    let rawv ← pyGetItem d "raw_message"
    let msgv ← pyGetItem d "message"
    let items ← pyIterate msgv
    let msgs ← items.mapM Element.parse_element
    let stv ← pyGetItem d "sub_type"
    let st ← GroupMessageSubType.ofJValue stv
    let gidv ← pyGetItem d "group_id"
    let sndv ← pyGetItem d "sender"
    let snd ← GroupSender.from_json sndv
    let mid ← asInt midv
    let uid ← asInt uidv
    let font ← asInt fontv
    let raw ← asStr rawv
    let gid ← asInt gidv
    pure ⟨timev, selfv, pt, mt, mid, uid, font, msgs, raw, st, gid, snd⟩)

def FriendMessageEvent.from_json (d : JValue) : Except PyErr FriendMessageEvent :=
  handleKV "Invalid event type: " (do
    let timev ← pyGetItem d "time"
    let ptv ← pyGetItem d "post_type"
    let pt ← PostType.ofJValue ptv
    let selfv ← pyGetItem d "self_id"
    let mtv ← pyGetItem d "message_type"
    let mt ← MessageType.ofJValue mtv
    let midv ← pyGetItem d "message_id"
    let uidv ← pyGetItem d "user_id"
    let fontv ← pyGetItem d "font"
    let rawv ← pyGetItem d "raw_message"
    let msgv ← pyGetItem d "message"
    let items ← pyIterate msgv
    let msgs ← items.mapM Element.parse_element
    let stv ← pyGetItem d "sub_type"
    let st ← FriendMessageSubType.ofJValue stv
    let sndv ← pyGetItem d "sender"
    let snd ← FriendSender.from_json sndv
    let tid ← pyGetOpt d "target_id"
    let tsrc ← pyGetOpt d "temp_source"
    let mid ← asInt midv
    let uid ← asInt uidv
    let font ← asInt fontv
    let raw ← asStr rawv
    pure ⟨timev, selfv, pt, mt, mid, uid, font, msgs, raw, st, snd, tid, tsrc⟩)

/-- `MessageEvent.text`: `" ".join([message.text for message in
self.message])` — the comprehension evaluates every projection in order
(the first raise propagates), then the join inserts single spaces. -/
def MessageEvent.textE (msg : List Element) : Except PyErr String :=
  (msg.mapM Element.textE).map (fun ts => String.intercalate " " ts)

inductive MetaType where
  | heartbeat | lifecycle
deriving Repr, DecidableEq

def MetaType.value : MetaType → String
  | .heartbeat => "heartbeat"
  | .lifecycle => "lifecycle"

def MetaType.ofJValue : JValue → Except PyErr MetaType
  | .str "heartbeat" => .ok .heartbeat
  | .str "lifecycle" => .ok .lifecycle
  | v => .error (.valueError (pyStr v ++ " is not a valid MetaType"))

inductive LifeCycleType where
  | enable | disable | connect
deriving Repr, DecidableEq

def LifeCycleType.ofJValue : JValue → Except PyErr LifeCycleType
  | .str "enable" => .ok .enable
  | .str "disable" => .ok .disable
  | .str "connect" => .ok .connect
  | v => .error (.valueError (pyStr v ++ " is not a valid LifeCycleType"))

structure HeartbeatStatus where
  online : Bool
  good : Bool
deriving Repr, DecidableEq

/-- `HeartbeatStatus.from_json`: its own handler raises `ParameterError`
directly on a missing key; the asserts require real booleans. -/
def HeartbeatStatus.from_json : JValue → Except PyErr HeartbeatStatus
  | .obj fs =>
    match jlookup fs "online" with
    | none => .error (.parameterError "Missing required field: online")
    | some ov =>
      match jlookup fs "good" with
      | none => .error (.parameterError "Missing required field: good")
      | some gv =>
        match ov, gv with
        | .bool ob, .bool gb => .ok ⟨ob, gb⟩
        | _, _ => .error .assertionError
  | _ => .error notSubscriptable

/-- `HeartbeatStatus.to_json` raises `NonSerializableError`. -/
def HeartbeatStatus.to_json (_ : HeartbeatStatus) : Except PyErr JValue :=
  .error (.nonSerializableError "This class is non-serializable")

/-- Meta events inherit `BasicEvent.__post_init__`, so `time` and
`self_id` are asserted to be integers. -/
structure HeartbeatEvent where
  time : Int
  self_id : Int
  post_type : PostType
  meta_event_type : MetaType
  status : HeartbeatStatus
  interval : JValue
deriving Repr

structure LifeCycleEvent where
  time : Int
  self_id : Int
  post_type : PostType
  meta_event_type : MetaType
  sub_type : LifeCycleType
deriving Repr

def HeartbeatEvent.from_json (d : JValue) : Except PyErr HeartbeatEvent :=
  handleKV "Invalid event type: " (do
    let timev ← pyGetItem d "time"
    let selfv ← pyGetItem d "self_id"
    let stv ← pyGetItem d "status"
    let status ← HeartbeatStatus.from_json stv
    let intv ← pyGetItem d "interval"
    let time ← asInt timev
    let selfId ← asInt selfv
    pure ⟨time, selfId, PostType.meta, MetaType.heartbeat, status, intv⟩)

def LifeCycleEvent.from_json (d : JValue) : Except PyErr LifeCycleEvent :=
  handleKV "Invalid event type: " (do
    let timev ← pyGetItem d "time"
    let selfv ← pyGetItem d "self_id"
    let stv ← pyGetItem d "sub_type"
    let st ← LifeCycleType.ofJValue stv
    let time ← asInt timev
    let selfId ← asInt selfv
    pure ⟨time, selfId, PostType.meta, MetaType.lifecycle, st⟩)

/-- The sum of the concrete events reachable through
`BasicEvent.parse_event` in the py_napcat tree. -/
inductive BEvent where
  | heartbeat (e : HeartbeatEvent)
  | lifecycle (e : LifeCycleEvent)
  | groupMessage (e : GroupMessageEvent)
  | friendMessage (e : FriendMessageEvent)
deriving Repr

def BEvent.post_type : BEvent → PostType
  | .heartbeat e => e.post_type
  | .lifecycle e => e.post_type
  | .groupMessage e => e.post_type
  | .friendMessage e => e.post_type

/-- The discriminator keys under which each concrete event class is
registered (the `@register_event_parser` decorators):
`MessageEvent` is registered under both `MESSAGE` and `MESSAGE_SENT`. -/
def BEvent.registered_keys : BEvent → List PostType
  | .heartbeat _ => [PostType.meta]
  | .lifecycle _ => [PostType.meta]
  | .groupMessage _ => [PostType.message, PostType.message_sent]
  | .friendMessage _ => [PostType.message, PostType.message_sent]

/-- `MessageEvent.parse_event`: level-2 dispatch on `message_type`.  The
nested registry maps `GROUP` to `GroupMessageEvent` and `PRIVATE` to
`FriendMessageEvent` (the two decorators, no collision), so the lookup
is inlined and the `UnregisteredEventError` branch is dead. -/
def MessageEvent.parse_event (d : JValue) : Except PyErr BEvent :=
  match pyGetItem d "message_type" with
  | .error (.keyError k) => .error (.parameterError ("Missing required field: " ++ k))
  | .error e => .error e
  | .ok v =>
    match MessageType.ofJValue v with
    | .error (.valueError _) => .error (.parameterError ("Unknown event type: " ++ pyStr v))
    | .error e => .error e
    | .ok MessageType.group =>
      wrapDispatch "Failed to parse group event"
        ((GroupMessageEvent.from_json d).map BEvent.groupMessage)
    | .ok MessageType.private_ =>
      wrapDispatch "Failed to parse private event"
        ((FriendMessageEvent.from_json d).map BEvent.friendMessage)

/-- `MetaEvent.parse_event`: level-2 dispatch on `meta_event_type`. -/
def MetaEvent.parse_event (d : JValue) : Except PyErr BEvent :=
  match pyGetItem d "meta_event_type" with
  | .error (.keyError k) => .error (.parameterError ("Missing required field: " ++ k))
  | .error e => .error e
  | .ok v =>
    match MetaType.ofJValue v with
    | .error (.valueError _) => .error (.parameterError ("Unknown event type: " ++ pyStr v))
    | .error e => .error e
    | .ok MetaType.heartbeat =>
      wrapDispatch "Failed to parse heartbeat event"
        ((HeartbeatEvent.from_json d).map BEvent.heartbeat)
    | .ok MetaType.lifecycle =>
      wrapDispatch "Failed to parse lifecycle event"
        ((LifeCycleEvent.from_json d).map BEvent.lifecycle)

/-- The top-level registry contents after importing the py_napcat
modules: `meta_event.py` registers `META`, `message_event.py` registers
`MESSAGE` and `MESSAGE_SENT`; the `notice_event.py` and
`request_event.py` of this tree never call
`BasicEvent.register_event_parser`, so `NOTICE` and `REQUEST` stay
unregistered. -/
def eventRegistry : PostType → Option (JValue → Except PyErr BEvent)
  | .meta => some MetaEvent.parse_event
  | .message => some MessageEvent.parse_event
  | .message_sent => some MessageEvent.parse_event
  | .notice => none
  | .request => none

/-- `BasicEvent.parse_event`: level-1 dispatch on `post_type`. -/
def BasicEvent.parse_event (d : JValue) : Except PyErr BEvent :=
  match pyGetItem d "post_type" with
  | .error (.keyError k) => .error (.parameterError ("Missing required field: " ++ k))
  | .error e => .error e
  | .ok v =>
    match PostType.ofJValue v with
    | .error (.valueError _) => .error (.parameterError ("Unknown event type: " ++ pyStr v))
    | .error e => .error e
    | .ok pt =>
      match eventRegistry pt with
      | some cls => wrapDispatch ("Failed to parse " ++ pt.value ++ " event") (cls d)
      | none =>
        .error (.unregisteredEventError ("No parser registered for event type: " ++ pt.value))

/-! ## Notice and request events (`Hcatbot/model/notice_event.py`,
`Hcatbot/model/request_event.py`).  These use the same registry pattern;
their `from_json` methods hard-code `post_type` and the variant's
`notice_type`/`request_type`. -/

inductive NoticeType where
  | group_upload | group_admin | group_decrease | group_increase
  | group_ban | group_recall | group_card | group_msg_emoji_like
  | friend_add | friend_recall | lucky_king | essence | honor | poke
deriving Repr, DecidableEq

def NoticeType.value : NoticeType → String
  | .group_upload => "group_upload"
  | .group_admin => "group_admin"
  | .group_decrease => "group_decrease"
  | .group_increase => "group_increase"
  | .group_ban => "group_ban"
  | .group_recall => "group_recall"
  | .group_card => "group_card"
  | .group_msg_emoji_like => "group_msg_emoji_like"
  | .friend_add => "friend_add"
  | .friend_recall => "friend_recall"
  | .lucky_king => "lucky_king"
  | .essence => "essence"
  | .honor => "honor"
  | .poke => "poke"

def NoticeType.ofJValue : JValue → Option NoticeType
  | .str "group_upload" => some .group_upload
  | .str "group_admin" => some .group_admin
  | .str "group_decrease" => some .group_decrease
  | .str "group_increase" => some .group_increase
  | .str "group_ban" => some .group_ban
  | .str "group_recall" => some .group_recall
  | .str "group_card" => some .group_card
  | .str "group_msg_emoji_like" => some .group_msg_emoji_like
  | .str "friend_add" => some .friend_add
  | .str "friend_recall" => some .friend_recall
  | .str "lucky_king" => some .lucky_king
  | .str "essence" => some .essence
  | .str "honor" => some .honor
  | .str "poke" => some .poke
  | _ => none

inductive GroupAdminType where
  | set | unset
deriving Repr, DecidableEq

def GroupAdminType.ofJValue : JValue → Except PyErr GroupAdminType
  | .str "set" => .ok .set
  | .str "unset" => .ok .unset
  | v => .error (.valueError (pyStr v ++ " is not a valid GroupAdminType"))

inductive GroupDecreaseType where
  | leave | kick | kick_me
deriving Repr, DecidableEq

def GroupDecreaseType.ofJValue : JValue → Except PyErr GroupDecreaseType
  | .str "leave" => .ok .leave
  | .str "kick" => .ok .kick
  | .str "kick_me" => .ok .kick_me
  | v => .error (.valueError (pyStr v ++ " is not a valid GroupDecreaseType"))

inductive GroupIncreaseType where
  | approve | invite
deriving Repr, DecidableEq

def GroupIncreaseType.ofJValue : JValue → Except PyErr GroupIncreaseType
  | .str "approve" => .ok .approve
  | .str "invite" => .ok .invite
  | v => .error (.valueError (pyStr v ++ " is not a valid GroupIncreaseType"))

inductive GroupBanType where
  | ban | lift_ban
deriving Repr, DecidableEq

def GroupBanType.ofJValue : JValue → Except PyErr GroupBanType
  | .str "ban" => .ok .ban
  | .str "lift_ban" => .ok .lift_ban
  | v => .error (.valueError (pyStr v ++ " is not a valid GroupBanType"))

inductive EssenceType where
  | add | delete
deriving Repr, DecidableEq

def EssenceType.ofJValue : JValue → Except PyErr EssenceType
  | .str "add" => .ok .add
  | .str "delete" => .ok .delete
  | v => .error (.valueError (pyStr v ++ " is not a valid EssenceType"))

/-- `GroupUploadNoticeEvent.File`: decoded with its own
`KeyError -> ParameterError` handler and asserted field types; its
`to_json` raises `NonSerializableError`. -/
structure GroupUploadFile where
  id : Int
  name : String
  size : Int
  busid : Int
deriving Repr, DecidableEq

def GroupUploadFile.from_json : JValue → Except PyErr GroupUploadFile
  | .obj fs =>
    match jlookup fs "id" with
    | none => .error (.parameterError "Missing required field: id")
    | some idv =>
      match jlookup fs "name" with
      | none => .error (.parameterError "Missing required field: name")
      | some nv =>
        match jlookup fs "size" with
        | none => .error (.parameterError "Missing required field: size")
        | some sv =>
          match jlookup fs "busid" with
          | none => .error (.parameterError "Missing required field: busid")
          | some bv =>
            match idv, nv, sv, bv with
            | .int i, .str n, .int s, .int b => .ok ⟨i, n, s, b⟩
            | _, _, _, _ => .error .assertionError
  | _ => .error notSubscriptable

def GroupUploadFile.to_json (_ : GroupUploadFile) : Except PyErr JValue :=
  .error (.nonSerializableError "This class is non-serializable")

/-- The variant-specific fields of the 14 notice event classes. -/
inductive NPayload where
  | groupUpload (group_id user_id : Int) (file_info : GroupUploadFile)
  | groupAdmin (group_id user_id : Int) (sub_type : GroupAdminType)
  | groupDecrease (group_id operator_id user_id : Int) (sub_type : GroupDecreaseType)
  | groupIncrease (group_id operator_id user_id : Int) (sub_type : GroupIncreaseType)
  | groupBan (group_id operator_id user_id duration : Int) (sub_type : GroupBanType)
  | groupRecall (group_id user_id operator_id message_id : Int)
  | groupCard (group_id user_id : Int) (card_new card_old : String)
  | groupMsgEmojiLike (group_id message_id count : Int)
      (user_id operator_id likes code : Option JValue)
  | friendAdd (user_id : Int)
  | friendRecall (user_id message_id : Int)
  | luckyKing (group_id user_id target_id : Int)
  | essence (group_id message_id sender_id operator_id : Int) (sub_type : EssenceType)
  | honor (group_id user_id : Int) (honor_type : String)
  | poke (user_id target_id : Int) (group_id : Option JValue)
deriving Repr

/-- A decoded notice event: the shared `NoticeEvent`/`BasicEvent` fields
plus the variant payload. -/
structure NEvent where
  time : Int
  self_id : Int
  post_type : PostType
  notice_type : NoticeType
  payload : NPayload
deriving Repr

def GroupUploadNoticeEvent.from_json (d : JValue) : Except PyErr NEvent :=
  handleK (do
    let timev ← pyGetItem d "time"
    let selfv ← pyGetItem d "self_id"
    let gidv ← pyGetItem d "group_id"
    let uidv ← pyGetItem d "user_id"
    let filev ← pyGetItem d "file"
    let finfo ← GroupUploadFile.from_json filev
    let time ← asInt timev
    let selfId ← asInt selfv
    let gid ← asInt gidv
    let uid ← asInt uidv
    pure ⟨time, selfId, PostType.notice, NoticeType.group_upload,
          NPayload.groupUpload gid uid finfo⟩)

def GroupAdminNoticeEvent.from_json (d : JValue) : Except PyErr NEvent :=
  handleKV "Invalid sub type: " (do
    let timev ← pyGetItem d "time"
    let selfv ← pyGetItem d "self_id"
    let gidv ← pyGetItem d "group_id"
    let uidv ← pyGetItem d "user_id"
    let stv ← pyGetItem d "sub_type"
    let st ← GroupAdminType.ofJValue stv
    let time ← asInt timev
    let selfId ← asInt selfv
    let gid ← asInt gidv
    let uid ← asInt uidv
    pure ⟨time, selfId, PostType.notice, NoticeType.group_admin,
          NPayload.groupAdmin gid uid st⟩)

def GroupDecreaseNoticeEvent.from_json (d : JValue) : Except PyErr NEvent :=
  handleKV "Invalid sub type: " (do
    let timev ← pyGetItem d "time"
    let selfv ← pyGetItem d "self_id"
    let gidv ← pyGetItem d "group_id"
    let oidv ← pyGetItem d "operator_id"
    let uidv ← pyGetItem d "user_id"
    let stv ← pyGetItem d "sub_type"
    let st ← GroupDecreaseType.ofJValue stv
    let time ← asInt timev
    let selfId ← asInt selfv
    let gid ← asInt gidv
    let oid ← asInt oidv
    let uid ← asInt uidv
    pure ⟨time, selfId, PostType.notice, NoticeType.group_decrease,
          NPayload.groupDecrease gid oid uid st⟩)

def GroupIncreaseNoticeEvent.from_json (d : JValue) : Except PyErr NEvent :=
  handleKV "Invalid sub type: " (do
    let timev ← pyGetItem d "time"
    let selfv ← pyGetItem d "self_id"
    let gidv ← pyGetItem d "group_id"
    let oidv ← pyGetItem d "operator_id"
    let uidv ← pyGetItem d "user_id"
    let stv ← pyGetItem d "sub_type"
    let st ← GroupIncreaseType.ofJValue stv
    let time ← asInt timev
    let selfId ← asInt selfv
    let gid ← asInt gidv
    let oid ← asInt oidv
    let uid ← asInt uidv
    pure ⟨time, selfId, PostType.notice, NoticeType.group_increase,
          NPayload.groupIncrease gid oid uid st⟩)

def GroupBanNoticeEvent.from_json (d : JValue) : Except PyErr NEvent :=
  handleKV "Invalid sub type: " (do
    let timev ← pyGetItem d "time"
    let selfv ← pyGetItem d "self_id"
    let gidv ← pyGetItem d "group_id"
    let oidv ← pyGetItem d "operator_id"
    let uidv ← pyGetItem d "user_id"
    let durv ← pyGetItem d "duration"
    let stv ← pyGetItem d "sub_type"
    let st ← GroupBanType.ofJValue stv
    let time ← asInt timev
    let selfId ← asInt selfv
    let gid ← asInt gidv
    let oid ← asInt oidv
    let uid ← asInt uidv
    let dur ← asInt durv
    pure ⟨time, selfId, PostType.notice, NoticeType.group_ban,
          NPayload.groupBan gid oid uid dur st⟩)

def GroupRecallNoticeEvent.from_json (d : JValue) : Except PyErr NEvent :=
  handleK (do
    let timev ← pyGetItem d "time"
    let selfv ← pyGetItem d "self_id"
    let gidv ← pyGetItem d "group_id"
    let uidv ← pyGetItem d "user_id"
    let oidv ← pyGetItem d "operator_id"
    let midv ← pyGetItem d "message_id"
    let time ← asInt timev
    let selfId ← asInt selfv
    let gid ← asInt gidv
    let oid ← asInt oidv
    let uid ← asInt uidv
    let mid ← asInt midv
    pure ⟨time, selfId, PostType.notice, NoticeType.group_recall,
          NPayload.groupRecall gid uid oid mid⟩)

def GroupCardNoticeEvent.from_json (d : JValue) : Except PyErr NEvent :=
  handleK (do
    let timev ← pyGetItem d "time"
    let selfv ← pyGetItem d "self_id"
    let gidv ← pyGetItem d "group_id"
    let uidv ← pyGetItem d "user_id"
    let cnv ← pyGetItem d "card_new"
    let cov ← pyGetItem d "card_old"
    let time ← asInt timev
    let selfId ← asInt selfv
    let gid ← asInt gidv
    let uid ← asInt uidv
    let cn ← asStr cnv
    let co ← asStr cov
    pure ⟨time, selfId, PostType.notice, NoticeType.group_card,
          NPayload.groupCard gid uid cn co⟩)

def GroupMsgEmojiLikeNoticeEvent.from_json (d : JValue) : Except PyErr NEvent :=
  handleK (do
    let timev ← pyGetItem d "time"
    let selfv ← pyGetItem d "self_id"
    let gidv ← pyGetItem d "group_id"
    let midv ← pyGetItem d "message_id"
    let cntv ← pyGetItem d "count"
    let uid ← pyGetOpt d "user_id"
    let oid ← pyGetOpt d "operator_id"
    let likes ← pyGetOpt d "likes"
    let code ← pyGetOpt d "code"
    let time ← asInt timev
    let selfId ← asInt selfv
    let gid ← asInt gidv
    let mid ← asInt midv
    let cnt ← asInt cntv
    pure ⟨time, selfId, PostType.notice, NoticeType.group_msg_emoji_like,
          NPayload.groupMsgEmojiLike gid mid cnt uid oid likes code⟩)

def FriendAddNoticeEvent.from_json (d : JValue) : Except PyErr NEvent :=
  handleK (do
    let timev ← pyGetItem d "time"
    let selfv ← pyGetItem d "self_id"
    let uidv ← pyGetItem d "user_id"
    let time ← asInt timev
    let selfId ← asInt selfv
    let uid ← asInt uidv
    pure ⟨time, selfId, PostType.notice, NoticeType.friend_add, NPayload.friendAdd uid⟩)

def FriendRecallNoticeEvent.from_json (d : JValue) : Except PyErr NEvent :=
  handleK (do
    let timev ← pyGetItem d "time"
    let selfv ← pyGetItem d "self_id"
    let uidv ← pyGetItem d "user_id"
    let midv ← pyGetItem d "message_id"
    let time ← asInt timev
    let selfId ← asInt selfv
    let uid ← asInt uidv
    let mid ← asInt midv
    pure ⟨time, selfId, PostType.notice, NoticeType.friend_recall,
          NPayload.friendRecall uid mid⟩)

def LuckyKingNoticeEvent.from_json (d : JValue) : Except PyErr NEvent :=
  handleK (do
    let timev ← pyGetItem d "time"
    let selfv ← pyGetItem d "self_id"
    let gidv ← pyGetItem d "group_id"
    let uidv ← pyGetItem d "user_id"
    let tidv ← pyGetItem d "target_id"
    let time ← asInt timev
    let selfId ← asInt selfv
    let gid ← asInt gidv
    let uid ← asInt uidv
    let tid ← asInt tidv
    pure ⟨time, selfId, PostType.notice, NoticeType.lucky_king,
          NPayload.luckyKing gid uid tid⟩)

def EssenceNoticeEvent.from_json (d : JValue) : Except PyErr NEvent :=
  handleKV "Invalid sub type: " (do
    let timev ← pyGetItem d "time"
    let selfv ← pyGetItem d "self_id"
    let gidv ← pyGetItem d "group_id"
    let midv ← pyGetItem d "message_id"
    let sidv ← pyGetItem d "sender_id"
    let oidv ← pyGetItem d "operator_id"
    let stv ← pyGetItem d "sub_type"
    let st ← EssenceType.ofJValue stv
    let time ← asInt timev
    let selfId ← asInt selfv
    let gid ← asInt gidv
    let mid ← asInt midv
    let sid ← asInt sidv
    let oid ← asInt oidv
    pure ⟨time, selfId, PostType.notice, NoticeType.essence,
          NPayload.essence gid mid sid oid st⟩)

def HonorNoticeEvent.from_json (d : JValue) : Except PyErr NEvent :=
  handleK (do
    let timev ← pyGetItem d "time"
    let selfv ← pyGetItem d "self_id"
    let gidv ← pyGetItem d "group_id"
    let uidv ← pyGetItem d "user_id"
    let htv ← pyGetItem d "honor_type"
    let time ← asInt timev
    let selfId ← asInt selfv
    let gid ← asInt gidv
    let uid ← asInt uidv
    let ht ← asStr htv
    pure ⟨time, selfId, PostType.notice, NoticeType.honor, NPayload.honor gid uid ht⟩)

def PokeNoticeEvent.from_json (d : JValue) : Except PyErr NEvent :=
  handleKV "Invalid event type: " (do
    let timev ← pyGetItem d "time"
    let selfv ← pyGetItem d "self_id"
    let uidv ← pyGetItem d "user_id"
    let tidv ← pyGetItem d "target_id"
    let gid ← pyGetOpt d "group_id"
    let time ← asInt timev
    let selfId ← asInt selfv
    let uid ← asInt uidv
    let tid ← asInt tidv
    pure ⟨time, selfId, PostType.notice, NoticeType.poke, NPayload.poke uid tid gid⟩)

/-- `NoticeEvent.parse_event`: dispatch on `notice_type`.  All 14
variants are registered by the import-time decorators (no collision), so
the lookup is inlined and the `UnregisteredEventError` branch is dead. -/
def NoticeEvent.parse_event (d : JValue) : Except PyErr NEvent :=
  match pyGetItem d "notice_type" with
  | .error (.keyError k) => .error (.parameterError ("Missing required field: " ++ k))
  | .error e => .error e
  | .ok v =>
    match NoticeType.ofJValue v with
    | none => .error (.parameterError ("Unknown event type: " ++ pyStr v))
    | some nt =>
      wrapDispatch ("Failed to parse " ++ nt.value ++ " event")
        (match nt with
         | .group_upload => GroupUploadNoticeEvent.from_json d
         | .group_admin => GroupAdminNoticeEvent.from_json d
         | .group_decrease => GroupDecreaseNoticeEvent.from_json d
         | .group_increase => GroupIncreaseNoticeEvent.from_json d
         | .group_ban => GroupBanNoticeEvent.from_json d
         | .group_recall => GroupRecallNoticeEvent.from_json d
         | .group_card => GroupCardNoticeEvent.from_json d
         | .group_msg_emoji_like => GroupMsgEmojiLikeNoticeEvent.from_json d
         | .friend_add => FriendAddNoticeEvent.from_json d
         | .friend_recall => FriendRecallNoticeEvent.from_json d
         | .lucky_king => LuckyKingNoticeEvent.from_json d
         | .essence => EssenceNoticeEvent.from_json d
         | .honor => HonorNoticeEvent.from_json d
         | .poke => PokeNoticeEvent.from_json d)

inductive RequestType where
  | friend | group
deriving Repr, DecidableEq

def RequestType.value : RequestType → String
  | .friend => "friend"
  | .group => "group"

def RequestType.ofJValue : JValue → Option RequestType
  | .str "friend" => some .friend
  | .str "group" => some .group
  | _ => none

inductive GroupRequestType where
  | add | invite
deriving Repr, DecidableEq

def GroupRequestType.ofJValue : JValue → Except PyErr GroupRequestType
  | .str "add" => .ok .add
  | .str "invite" => .ok .invite
  | v => .error (.valueError (pyStr v ++ " is not a valid GroupRequestType"))

inductive RPayload where
  | friendReq
  | groupReq (sub_request_type : GroupRequestType) (group_id : Int)
deriving Repr, DecidableEq

structure REvent where
  time : Int
  self_id : Int
  post_type : PostType
  request_type : RequestType
  flag : String
  user_id : Int
  comment : String
  payload : RPayload
deriving Repr, DecidableEq

def FriendRequestEvent.from_json (d : JValue) : Except PyErr REvent :=
  handleK (do
    let timev ← pyGetItem d "time"
    let selfv ← pyGetItem d "self_id"
    let flagv ← pyGetItem d "flag"
    let uidv ← pyGetItem d "user_id"
    let comv ← pyGetItem d "comment"
    let time ← asInt timev
    let selfId ← asInt selfv
    let flag ← asStr flagv
    let uid ← asInt uidv
    let com ← asStr comv
    pure ⟨time, selfId, PostType.request, RequestType.friend, flag, uid, com,
          RPayload.friendReq⟩)

def GroupRequestEvent.from_json (d : JValue) : Except PyErr REvent :=
  handleKV "Invalid sub type: " (do
    let timev ← pyGetItem d "time"
    let selfv ← pyGetItem d "self_id"
    let flagv ← pyGetItem d "flag"
    let uidv ← pyGetItem d "user_id"
    let comv ← pyGetItem d "comment"
    let stv ← pyGetItem d "sub_type"
    let st ← GroupRequestType.ofJValue stv
    let gidv ← pyGetItem d "group_id"
    let time ← asInt timev
    let selfId ← asInt selfv
    let flag ← asStr flagv
    let uid ← asInt uidv
    let com ← asStr comv
    let gid ← asInt gidv
    pure ⟨time, selfId, PostType.request, RequestType.group, flag, uid, com,
          RPayload.groupReq st gid⟩)

/-- `RequestEvent.parse_event`: dispatch on `request_type` (both
variants registered). -/
def RequestEvent.parse_event (d : JValue) : Except PyErr REvent :=
  match pyGetItem d "request_type" with
  | .error (.keyError k) => .error (.parameterError ("Missing required field: " ++ k))
  | .error e => .error e
  | .ok v =>
    match RequestType.ofJValue v with
    | none => .error (.parameterError ("Unknown event type: " ++ pyStr v))
    | some rt =>
      wrapDispatch ("Failed to parse " ++ rt.value ++ " event")
        (match rt with
         | .friend => FriendRequestEvent.from_json d
         | .group => GroupRequestEvent.from_json d)

/-! ## The registration operations (`register_element` and
`register_event_parser`).  Decoders are identified by abstract tags; the
registry is the Python dict, as an insertion-ordered association list
with unique keys. -/

/-- `dict[k] = v`: insert or silently replace. -/
def dictSet {κ τ : Type} [DecidableEq κ] : List (κ × τ) → κ → τ → List (κ × τ)
  | [], k, v => [(k, v)]
  | (k1, v1) :: rest, k, v =>
    if k1 = k then (k, v) :: rest else (k1, v1) :: dictSet rest k v

def dictLookup {κ τ : Type} [DecidableEq κ] : List (κ × τ) → κ → Option τ
  | [], _ => none
  | (k1, v1) :: rest, k => if k1 = k then some v1 else dictLookup rest k

/-- `Element.register_element` (`Hcatbot/model/element.py` lines 68-74):
the decorator body is `cls._element_registry[element_type] =
element_class` — a plain dict store with no duplicate check; it cannot
fail. -/
def Element.register_element (reg : List (ElementType × Nat)) (et : ElementType)
    (cls : Nat) : List (ElementType × Nat) :=
  dictSet reg et cls

/-- `register_event_parser` as defined identically on `BasicEvent`,
`MessageEvent`, `MetaEvent`, `NoticeEvent` and `RequestEvent`: raises
`ParserRegisteredError` when the discriminator is already present,
otherwise adds the decoder. -/
def registerEventDecoder {κ : Type} [DecidableEq κ] (value : κ → String)
    (reg : List (κ × Nat)) (k : κ) (cls : Nat) : Except PyErr (List (κ × Nat)) :=
  if (dictLookup reg k).isSome then
    .error (.parserRegisteredError ("Parser for " ++ value k ++ " already registered"))
  else
    .ok (dictSet reg k cls)

/-! ## Helper lemmas for the claim proofs. -/

theorem wrapDispatch_eq_ok {α : Type} {m : String} {r : Except PyErr α} {a : α} :
    wrapDispatch m r = .ok a ↔ r = .ok a := by
  cases r with
  | ok b => simp [wrapDispatch]
  | error e => simp only [wrapDispatch]; split <;> simp

theorem except_bind_eq_ok {α β : Type} {x : Except PyErr α} {f : α → Except PyErr β} {b : β} :
    (x >>= f) = Except.ok b ↔ ∃ a, x = Except.ok a ∧ f a = Except.ok b := by
  cases x <;> simp [Bind.bind, Except.bind]

theorem except_map_eq_ok {α β : Type} {x : Except PyErr α} {f : α → β} {b : β} :
    x.map f = Except.ok b ↔ ∃ a, x = Except.ok a ∧ f a = b := by
  cases x <;> simp [Except.map]

theorem except_pure_eq_ok {α : Type} {a b : α} :
    (pure a : Except PyErr α) = Except.ok b ↔ a = b := by
  simp [pure, Except.pure]

theorem handleKV_eq_ok {α : Type} {m : String} {r : Except PyErr α} {a : α} :
    handleKV m r = .ok a ↔ r = .ok a := by
  cases r with
  | ok b => simp [handleKV]
  | error e => cases e <;> simp [handleKV]

theorem handleK_eq_ok {α : Type} {r : Except PyErr α} {a : α} :
    handleK r = .ok a ↔ r = .ok a := by
  cases r with
  | ok b => simp [handleK]
  | error e => cases e <;> simp [handleK]

theorem dictLookup_dictSet_self {κ τ : Type} [DecidableEq κ]
    (reg : List (κ × τ)) (k : κ) (v : τ) :
    dictLookup (dictSet reg k v) k = some v := by
  induction reg with
  | nil => simp [dictSet, dictLookup]
  | cons kv rest ih =>
    obtain ⟨k1, v1⟩ := kv
    by_cases hk : k1 = k
    · simp [dictSet, dictLookup, hk]
    · simp [dictSet, dictLookup, hk, ih]

/-- The element payload of a decoded element: `parse_element` on an
object whose data spine is explicit is the fuel parser at an explicitly
`succ`-shaped fuel. -/
theorem parse_element_obj_eq (fs : List (String × JValue)) :
    Element.parse_element (.obj fs) = parseElementFuel (JValue.sizeF fs + 1) (.obj fs) := rfl

/-! ## Claim C2 -/

/-- Claim C2 counterexample: an input whose `post_type` is an unknown
string fails with `ParameterError`, not with an `UnregisteredError`
kind: `PostType(data["post_type"])` raises `ValueError`, which
`BasicEvent.parse_event` converts to `ParameterError`;
`UnregisteredEventError` is only reachable after the enum conversion
succeeded. -/
theorem C2_counterexample :
    BasicEvent.parse_event (.obj [("post_type", .str "bogus")]) =
      .error (.parameterError "Unknown event type: bogus") := rfl

/-- Claim C2 (amended): decoding an event whose `post_type` string is
not a `PostType` member value fails with `ParameterError`; an
`UnregisteredEventError` is raised exactly when the `post_type` is a
known wire value whose `PostType` member has no registered parser (in
the py_napcat tree: `notice` and `request`). -/
theorem C2_amended :
    (∀ (d v : JValue) (m : String),
       pyGetItem d "post_type" = .ok v →
       PostType.ofJValue v = .error (.valueError m) →
       BasicEvent.parse_event d = .error (.parameterError ("Unknown event type: " ++ pyStr v))) ∧
    (∀ (d v : JValue) (pt : PostType),
       pyGetItem d "post_type" = .ok v →
       PostType.ofJValue v = .ok pt →
       eventRegistry pt = none →
       BasicEvent.parse_event d =
         .error (.unregisteredEventError ("No parser registered for event type: " ++ pt.value))) := by
  constructor
  · intro d v m h1 h2
    unfold BasicEvent.parse_event
    rw [h1]
    dsimp only
    rw [h2]
  · intro d v pt h1 h2 h3
    unfold BasicEvent.parse_event
    rw [h1]
    dsimp only
    rw [h2]
    dsimp only
    rw [h3]

/-- Claim C2 amended, witnessed at `post_type = "bogus"` (unknown
string) and `post_type = "notice"` (known value, no registered
parser). -/
theorem C2_amended_witness :
    BasicEvent.parse_event (.obj [("post_type", .str "bogus")]) =
      .error (.parameterError "Unknown event type: bogus") ∧
    BasicEvent.parse_event (.obj [("post_type", .str "notice")]) =
      .error (.unregisteredEventError "No parser registered for event type: notice") :=
  ⟨C2_amended.1 (.obj [("post_type", .str "bogus")]) (.str "bogus")
      "bogus is not a valid PostType" rfl rfl,
   C2_amended.2 (.obj [("post_type", .str "notice")]) (.str "notice") PostType.notice
      rfl rfl rfl⟩

/-! ## Claim C3 -/

/-- Claim C3 counterexample: registering a second decoder for an
`ElementType` that already has one does not fail — `register_element`
is a bare dict store, so it silently replaces decoder `0` with decoder
`1` (the registry keeps the second, not the first). -/
theorem C3_counterexample :
    Element.register_element [(ElementType.text, 0)] ElementType.text 1 =
      [(ElementType.text, 1)] ∧
    dictLookup (Element.register_element [(ElementType.text, 0)] ElementType.text 1)
      ElementType.text = some 1 := ⟨rfl, rfl⟩

/-- Claim C3 (amended): the element registry's register operation never
fails — a duplicate registration silently replaces the stored decoder
(last registration wins); it is the event registries'
`register_event_parser` (on `BasicEvent`, `MessageEvent`, `MetaEvent`,
`NoticeEvent`, `RequestEvent`) that fails with `ParserRegisteredError`
for an already-present discriminator, leaving the first decoder in
place. -/
theorem C3_amended :
    (∀ (reg : List (ElementType × Nat)) (et : ElementType) (cls : Nat),
       dictLookup (Element.register_element reg et cls) et = some cls) ∧
    (∀ (value : PostType → String) (reg : List (PostType × Nat)) (k : PostType) (cls old : Nat),
       dictLookup reg k = some old →
       registerEventDecoder value reg k cls =
         .error (.parserRegisteredError ("Parser for " ++ value k ++ " already registered"))) := by
  constructor
  · intro reg et cls
    exact dictLookup_dictSet_self reg et cls
  · intro value reg k cls old h
    unfold registerEventDecoder
    rw [h]
    rfl

/-- Claim C3 amended, witnessed on a singleton registry. -/
theorem C3_amended_witness :
    dictLookup (Element.register_element [(ElementType.text, 0)] ElementType.text 1)
      ElementType.text = some 1 ∧
    registerEventDecoder PostType.value [(PostType.meta, 0)] PostType.meta 1 =
      .error (.parserRegisteredError "Parser for meta_event already registered") :=
  ⟨C3_amended.1 [(ElementType.text, 0)] ElementType.text 1,
   C3_amended.2 PostType.value [(PostType.meta, 0)] PostType.meta 1 0 rfl⟩

/-! ## Claim C6 -/

/-- Claim C6: for every input of the form with `type = "music"` and a
`data` sub-object, `Element.parse_element` fails with
`SendElementOnlyError`, and the error leaves the dispatch pipeline
unwrapped: `SendElementOnlyError` derives `CustomError` and hence
`BaseException`, so the boundary's `except Exception` does not catch it
and no `ParseError` wrap occurs. -/
theorem C6_music_send_only :
    ∀ (fs : List (String × JValue)) (ed : JValue),
      jlookup fs "type" = some (.str "music") →
      jlookup fs "data" = some ed →
      Element.parse_element (.obj fs) =
        .error (.sendElementOnlyError "This element can not be received") := by
  intro fs ed hT hD
  rw [parse_element_obj_eq]
  simp only [parseElementFuel]
  rw [hT]
  dsimp only
  rw [show ElementType.ofJValue (.str "music") = some ElementType.music from rfl]
  dsimp only
  rw [hD]
  rfl

/-- Claim C6 witnessed on a concrete music payload. -/
theorem C6_music_send_only_witness :
    Element.parse_element (.obj [("type", .str "music"), ("data", .obj [])]) =
      .error (.sendElementOnlyError "This element can not be received") :=
  C6_music_send_only [("type", .str "music"), ("data", .obj [])] (.obj []) rfl rfl

/-! ## Claim C7 -/

/-- Claim C7 counterexample: encoding a `GroupSender` does not fail —
`GroupSender.to_json` builds and returns the wire dict. -/
theorem C7_counterexample :
    GroupSender.to_json ⟨.int 111, .str "nick", UserSex.unknown, UserRole.member, none⟩ =
      .obj [("user_id", .int 111), ("nickname", .str "nick"),
            ("sex", .str "unknown"), ("role", .str "member")] := rfl

/-- Claim C7 (amended): `GroupSender.to_json` succeeds on every sender,
emitting `user_id`, `nickname`, `sex` and `role` with the stored values
and `card` exactly when one is present; senders are serializable — no
`NonSerializableError` is raised (in this tree that error belongs to
`HeartbeatStatus.to_json` and `GroupUploadNoticeEvent.File.to_json`). -/
theorem C7_amended :
    ∀ (s : GroupSender), ∃ fs,
      GroupSender.to_json s = .obj fs ∧
      jlookup fs "user_id" = some s.user_id ∧
      jlookup fs "nickname" = some s.nickname ∧
      jlookup fs "sex" = some (.str s.sex.value) ∧
      jlookup fs "role" = some (.str s.role.value) ∧
      jlookup fs "card" = s.card := by
  intro s
  obtain ⟨u, n, sex, role, card⟩ := s
  cases card with
  | none => exact ⟨_, rfl, rfl, rfl, rfl, rfl, rfl⟩
  | some c => exact ⟨_, rfl, rfl, rfl, rfl, rfl, rfl⟩

/-! ## Claim C1 -/

/-- A group-message payload whose decoder fails internally with a
`ParameterError` (the `KeyError` on the absent required `time` field is
converted inside `GroupMessageEvent.from_json` by its own handler). -/
def c1ParameterPayload : JValue :=
  .obj [("post_type", .str "message"), ("message_type", .str "group")]

/-- A group-message payload that is well-formed except that
`message_id` is a string, so the dataclass assert raises
`AssertionError` (a Python built-in exception) inside the registered
decoder. -/
def c1AssertPayload : JValue :=
  .obj [("time", .int 1), ("post_type", .str "message"), ("self_id", .int 2),
        ("message_type", .str "group"), ("message_id", .str "x"), ("user_id", .int 3),
        ("font", .int 14), ("raw_message", .str "hi"), ("message", .arr []),
        ("sub_type", .str "normal"), ("group_id", .int 4),
        ("sender", .obj [("user_id", .int 3), ("nickname", .str "n"),
                         ("sex", .str "unknown"), ("role", .str "member")])]

/-- Claim C1 counterexample: a failure raised inside the registered
`group` decoder (`ParameterError`, from the missing `time` field)
crosses BOTH registry-dispatch boundaries (`MessageEvent.parse_event`
and `BasicEvent.parse_event`) without ever being re-wrapped as
`ParseError`: the boundary handler is `except Exception`, and
`CustomError` derives `BaseException`.  The claim's "re-wrapped exactly
once as ParseError at the first boundary" is false for it. -/
theorem C1_counterexample :
    BasicEvent.parse_event c1ParameterPayload =
      .error (.parameterError "Missing required field: time") := rfl

/-- Claim C1 (amended): a failure raised inside a registered decoder is
wrapped as `ParseError` at a registry-dispatch boundary only when it is
a Python built-in exception (`except Exception`); such a failure is
wrapped exactly once — at the first boundary it crosses, naming that
boundary's variant — because the resulting `ParseError` derives
`BaseException` and every deeper boundary lets it pass; a failure
already in the library's `CustomError` family (ParameterError,
SendElementOnlyError, UnregisteredError, ParseError) crosses every
boundary unwrapped.  The third conjunct shows the end-to-end behavior:
an `AssertionError` inside the `group` decoder comes out as a single
`ParseError` naming `group` (the first boundary), not `message` (the
outer one). -/
theorem C1_amended :
    (∀ (α : Type) (msg1 msg2 : String) (e : PyErr), e.isException = true →
       wrapDispatch (α := α) msg2 (wrapDispatch msg1 (.error e)) =
         .error (.parseError msg1)) ∧
    (∀ (α : Type) (msg1 msg2 : String) (e : PyErr), e.isException = false →
       wrapDispatch (α := α) msg2 (wrapDispatch msg1 (.error e)) = .error e) ∧
    (BasicEvent.parse_event c1AssertPayload =
       .error (.parseError "Failed to parse group event")) := by
  refine ⟨?_, ?_, rfl⟩
  · intro α msg1 msg2 e he
    rw [show wrapDispatch (α := α) msg1 (.error e) = .error (.parseError msg1) by
          simp [wrapDispatch, he]]
    rfl
  · intro α msg1 msg2 e he
    rw [show wrapDispatch (α := α) msg1 (.error e) = .error e by simp [wrapDispatch, he]]
    simp [wrapDispatch, he]

/-- Claim C1 amended, witnessed at an `AssertionError` (wrapped once)
and at a `SendElementOnlyError` (never wrapped). -/
theorem C1_amended_witness :
    wrapDispatch (α := Element) "inner" (wrapDispatch "outer" (.error PyErr.assertionError)) =
      .error (.parseError "outer") ∧
    wrapDispatch (α := Element) "inner"
        (wrapDispatch "outer" (.error (PyErr.sendElementOnlyError "m"))) =
      .error (.sendElementOnlyError "m") :=
  ⟨C1_amended.1 Element "outer" "inner" PyErr.assertionError rfl,
   C1_amended.2.1 Element "outer" "inner" (PyErr.sendElementOnlyError "m") rfl⟩

/-! ## Claim C5 -/

/-- The message-text rule exactly as the spec words it: the per-element
text projections joined with a single space, in original order — an
order-preserving fold with no special-casing. -/
def specJoinSpace : List String → String
  | [] => ""
  | [t] => t
  | t :: rest => t ++ " " ++ specJoinSpace rest

theorem intercalate_go_eq (ts : List String) :
    ∀ acc, String.intercalate.go acc " " ts = specJoinSpace (acc :: ts) := by
  induction ts with
  | nil => intro acc; rfl
  | cons a as ih =>
    intro acc
    rw [String.intercalate.go, ih]
    cases as with
    | nil => rfl
    | cons b bs =>
      show specJoinSpace ((acc ++ " " ++ a) :: b :: bs) = acc ++ " " ++ specJoinSpace (a :: b :: bs)
      rw [show specJoinSpace ((acc ++ " " ++ a) :: b :: bs) =
            (acc ++ " " ++ a) ++ " " ++ specJoinSpace (b :: bs) from rfl]
      rw [show specJoinSpace (a :: b :: bs) = a ++ " " ++ specJoinSpace (b :: bs) from rfl]
      simp [String.append_assoc]

theorem intercalate_space_eq_specJoin (ts : List String) :
    String.intercalate " " ts = specJoinSpace ts := by
  cases ts with
  | nil => rfl
  | cons t rest => exact intercalate_go_eq rest t

/-- Claim C5: the text of a message event's ordered element list is the
per-element text projections joined with a single space, in original
order (whenever the projections are defined, i.e. the comprehension in
`" ".join([m.text for m in self.message])` raises nothing); in
particular the elements Reply("576826342"), Text("好看") give
"[回复](576826342) 好看". -/
theorem C5_message_text :
    (∀ (es : List Element) (ts : List String),
       es.mapM Element.textE = .ok ts →
       MessageEvent.textE es = .ok (specJoinSpace ts)) ∧
    (MessageEvent.textE [Element.reply ⟨"576826342"⟩, Element.text ⟨"好看"⟩] =
       .ok "[回复](576826342) 好看") := by
  constructor
  · intro es ts h
    unfold MessageEvent.textE
    rw [h]
    simp [Except.map, intercalate_space_eq_specJoin]
  · rfl

/-- Claim C5 witnessed on the spec's own example element list. -/
theorem C5_message_text_witness :
    MessageEvent.textE [Element.reply ⟨"576826342"⟩, Element.text ⟨"好看"⟩] =
      .ok (specJoinSpace ["[回复](576826342)", "好看"]) :=
  C5_message_text.1 [Element.reply ⟨"576826342"⟩, Element.text ⟨"好看"⟩]
    ["[回复](576826342)", "好看"] rfl

/-! ## Claim C10 -/

/-- The first group-message payload of `tests/message_event_test.py`
(the spec's §3 sender shape): its `sender` object has `user_id`,
`nickname`, `card` and `role` but no `sex`. -/
def testGroupMsgNoSex : JValue :=
  .obj [("self_id", .int 111), ("user_id", .int 111), ("time", .int 111),
        ("message_id", .int 111), ("message_seq", .int 111), ("real_id", .int 111),
        ("real_seq", .str "111"), ("message_type", .str "group"),
        ("sender", .obj [("user_id", .int 111), ("nickname", .str "111"),
                         ("card", .str "HAZ0921/5740/1928832/mc就很难"),
                         ("role", .str "member")]),
        ("raw_message", .str "[CQ:reply,id=576826342]好看"), ("font", .int 14),
        ("sub_type", .str "normal"),
        ("message", .arr [.obj [("type", .str "reply"),
                                ("data", .obj [("id", .str "576826342")])],
                          .obj [("type", .str "text"),
                                ("data", .obj [("text", .str "好看")])]]),
        ("message_format", .str "array"), ("post_type", .str "message"),
        ("group_id", .int 111)]

/-- Claim C10: decoding a message event requires the sender object to
contain a `sex` field — both sender decoders subscript `json_dict["sex"]`
unconditionally, raising `KeyError` when it is absent (given the fields
read before it are present), and the message-event decoder converts that
`KeyError` to `ParameterError`, so the decode fails.  The third conjunct
runs the actual test payload of `tests/message_event_test.py`, whose
sender (the spec's §3 shape) omits `sex`: the full `parse_event` fails
instead of producing the event the test expects. -/
theorem C10_sender_sex_required :
    (∀ (fs : List (String × JValue)),
       (jlookup fs "user_id").isSome →
       (jlookup fs "nickname").isSome →
       jlookup fs "sex" = none →
       GroupSender.from_json (.obj fs) = .error (.keyError "sex")) ∧
    (∀ (fs : List (String × JValue)),
       (jlookup fs "user_id").isSome →
       (jlookup fs "nickname").isSome →
       jlookup fs "sex" = none →
       FriendSender.from_json (.obj fs) = .error (.keyError "sex")) ∧
    (BasicEvent.parse_event testGroupMsgNoSex =
       .error (.parameterError "Missing required field: sex")) := by
  refine ⟨?_, ?_, rfl⟩
  · intro fs h1 h2 h3
    obtain ⟨u, hu⟩ := Option.isSome_iff_exists.mp h1
    obtain ⟨n, hn⟩ := Option.isSome_iff_exists.mp h2
    simp only [GroupSender.from_json]
    rw [hu]
    dsimp only
    rw [hn]
    dsimp only
    rw [h3]
  · intro fs h1 h2 h3
    obtain ⟨u, hu⟩ := Option.isSome_iff_exists.mp h1
    obtain ⟨n, hn⟩ := Option.isSome_iff_exists.mp h2
    simp only [FriendSender.from_json]
    rw [hu]
    dsimp only
    rw [hn]
    dsimp only
    rw [h3]

/-- Claim C10 witnessed on the test payload's sender object. -/
theorem C10_sender_sex_required_witness :
    GroupSender.from_json (.obj [("user_id", .int 111), ("nickname", .str "111"),
        ("card", .str "HAZ0921/5740/1928832/mc就很难"), ("role", .str "member")]) =
      .error (.keyError "sex") :=
  C10_sender_sex_required.1
    [("user_id", .int 111), ("nickname", .str "111"),
     ("card", .str "HAZ0921/5740/1928832/mc就很难"), ("role", .str "member")]
    rfl rfl rfl

/-! ## Claim C8 -/

/-- Claim C8: a forward-element payload whose data has a `content` array
decodes to a `ForwardElement` whose children are the recursive
`parse_element` results of the array entries, in their original order;
a forward-element payload without `content` (but with the required `id`)
decodes with an absent child list. -/
theorem C8_forward_content :
    (∀ (ds : List (String × JValue)) (entries : List JValue) (es : List Element) (s : String),
       jget ds "content" = some (.arr entries) →
       jlookup ds "id" = some (.str s) →
       entries.mapM Element.parse_element = .ok es →
       Element.parse_element (.obj [("type", .str "forward"), ("data", .obj ds)]) =
         .ok (.forward s (some es))) ∧
    (∀ (ds : List (String × JValue)) (s : String),
       jget ds "content" = none →
       jlookup ds "id" = some (.str s) →
       Element.parse_element (.obj [("type", .str "forward"), ("data", .obj ds)]) =
         .ok (.forward s none)) := by
  constructor
  · intro ds entries es s hc hid hmap
    rw [parse_element_obj_eq]
    simp only [parseElementFuel]
    rw [show jlookup [("type", JValue.str "forward"), ("data", JValue.obj ds)] "type" =
          some (JValue.str "forward") from rfl]
    dsimp only
    rw [show ElementType.ofJValue (JValue.str "forward") = some ElementType.forward from rfl]
    dsimp only
    rw [show jlookup [("type", JValue.str "forward"), ("data", JValue.obj ds)] "data" =
          some (JValue.obj ds) from rfl]
    dsimp only
    rw [hc]
    dsimp only
    rw [show pyIterate (JValue.arr entries) = Except.ok entries from rfl]
    dsimp only
    have hb : JValue.sizeL entries ≤
        JValue.sizeF [("type", JValue.str "forward"), ("data", JValue.obj ds)] := by
      have h1 := jlookup_size_lt (jget_eq_some hc)
      have h2 : JValue.size (JValue.arr entries) = JValue.sizeL entries + 1 := rfl
      have h3 : JValue.sizeF [("type", JValue.str "forward"), ("data", JValue.obj ds)] =
          JValue.sizeF ds + 4 := by
        simp [JValue.sizeF, JValue.size]
        omega
      omega
    rw [parseContentFuel_of_mapM_ok entries es _ hb hmap]
    dsimp only
    rw [hid]
    rfl
  · intro ds s hc hid
    rw [parse_element_obj_eq]
    simp only [parseElementFuel]
    rw [show jlookup [("type", JValue.str "forward"), ("data", JValue.obj ds)] "type" =
          some (JValue.str "forward") from rfl]
    dsimp only
    rw [show ElementType.ofJValue (JValue.str "forward") = some ElementType.forward from rfl]
    dsimp only
    rw [show jlookup [("type", JValue.str "forward"), ("data", JValue.obj ds)] "data" =
          some (JValue.obj ds) from rfl]
    dsimp only
    rw [hc]
    dsimp only
    rw [hid]
    rfl

/-- Claim C8 witnessed on a forward payload with one embedded text
child and on one with no content. -/
theorem C8_forward_content_witness :
    Element.parse_element (.obj [("type", .str "forward"),
        ("data", .obj [("id", .str "7"),
                       ("content", .arr [.obj [("type", .str "text"),
                                               ("data", .obj [("text", .str "好看")])]])])]) =
      .ok (.forward "7" (some [.text ⟨"好看"⟩])) ∧
    Element.parse_element (.obj [("type", .str "forward"),
        ("data", .obj [("id", .str "7533614539788225271")])]) =
      .ok (.forward "7533614539788225271" none) :=
  ⟨C8_forward_content.1 [("id", .str "7"),
      ("content", .arr [.obj [("type", .str "text"), ("data", .obj [("text", .str "好看")])]])]
      [.obj [("type", .str "text"), ("data", .obj [("text", .str "好看")])]]
      [.text ⟨"好看"⟩] "7" rfl rfl rfl,
   C8_forward_content.2 [("id", .str "7533614539788225271")] "7533614539788225271" rfl rfl⟩

/-! ## Claim C9 -/

/-- Claim C9: every event produced by a successful registry dispatch
carries a `post_type` matching a discriminator key under which its
concrete class is registered: py_napcat's `BasicEvent.parse_event`
yields meta events with `post_type = META` and message events with
`post_type` among the keys `MESSAGE`/`MESSAGE_SENT` under which
`MessageEvent` is registered; Hcatbot's `NoticeEvent.parse_event` and
`RequestEvent.parse_event` hard-code `post_type = NOTICE` / `REQUEST`
in every variant decoder. -/
theorem C9_post_type_matches_registration :
    (∀ (d : JValue) (e : BEvent), BasicEvent.parse_event d = .ok e →
       e.post_type ∈ e.registered_keys) ∧
    (∀ (d : JValue) (n : NEvent), NoticeEvent.parse_event d = .ok n →
       n.post_type = PostType.notice) ∧
    (∀ (d : JValue) (r : REvent), RequestEvent.parse_event d = .ok r →
       r.post_type = PostType.request) := by
  refine ⟨?_, ?_, ?_⟩
  · intro d e h
    unfold BasicEvent.parse_event at h
    cases hpt : pyGetItem d "post_type" with
    | error e1 => simp only [hpt] at h; cases e1 <;> simp at h
    | ok v =>
      simp only [hpt] at h
      cases hof : PostType.ofJValue v with
      | error e1 => simp only [hof] at h; cases e1 <;> simp at h
      | ok pt =>
        simp only [hof] at h
        cases pt with
        | notice => simp [eventRegistry] at h
        | request => simp [eventRegistry] at h
        | meta =>
          simp only [eventRegistry] at h
          rw [wrapDispatch_eq_ok] at h
          unfold MetaEvent.parse_event at h
          cases hmt : pyGetItem d "meta_event_type" with
          | error e1 => simp only [hmt] at h; cases e1 <;> simp at h
          | ok mv =>
            simp only [hmt] at h
            cases hmof : MetaType.ofJValue mv with
            | error e1 => simp only [hmof] at h; cases e1 <;> simp at h
            | ok mt =>
              simp only [hmof] at h
              cases mt with
              | heartbeat =>
                rw [wrapDispatch_eq_ok, except_map_eq_ok] at h
                obtain ⟨he, hfrom, rfl⟩ := h
                rw [HeartbeatEvent.from_json, handleKV_eq_ok] at hfrom
                repeat (obtain ⟨_, -, hfrom⟩ := except_bind_eq_ok.mp hfrom)
                rw [except_pure_eq_ok] at hfrom
                subst hfrom
                simp [BEvent.post_type, BEvent.registered_keys]
              | lifecycle =>
                rw [wrapDispatch_eq_ok, except_map_eq_ok] at h
                obtain ⟨he, hfrom, rfl⟩ := h
                rw [LifeCycleEvent.from_json, handleKV_eq_ok] at hfrom
                repeat (obtain ⟨_, -, hfrom⟩ := except_bind_eq_ok.mp hfrom)
                rw [except_pure_eq_ok] at hfrom
                subst hfrom
                simp [BEvent.post_type, BEvent.registered_keys]
        | message =>
          simp only [eventRegistry] at h
          rw [wrapDispatch_eq_ok] at h
          unfold MessageEvent.parse_event at h
          cases hmt : pyGetItem d "message_type" with
          | error e1 => simp only [hmt] at h; cases e1 <;> simp at h
          | ok mv =>
            simp only [hmt] at h
            cases hmof : MessageType.ofJValue mv with
            | error e1 => simp only [hmof] at h; cases e1 <;> simp at h
            | ok mt =>
              simp only [hmof] at h
              cases mt with
              | group =>
                rw [wrapDispatch_eq_ok, except_map_eq_ok] at h
                obtain ⟨ge, hfrom, rfl⟩ := h
                rw [GroupMessageEvent.from_json, handleKV_eq_ok] at hfrom
                obtain ⟨_, -, hfrom⟩ := except_bind_eq_ok.mp hfrom
                obtain ⟨ptv, hptv, hfrom⟩ := except_bind_eq_ok.mp hfrom
                obtain ⟨pt2, hpt2, hfrom⟩ := except_bind_eq_ok.mp hfrom
                repeat (obtain ⟨_, -, hfrom⟩ := except_bind_eq_ok.mp hfrom)
                rw [except_pure_eq_ok] at hfrom
                subst hfrom
                cases Except.ok.inj (hpt.symm.trans hptv)
                cases Except.ok.inj (hof.symm.trans hpt2)
                simp [BEvent.post_type, BEvent.registered_keys]
              | private_ =>
                rw [wrapDispatch_eq_ok, except_map_eq_ok] at h
                obtain ⟨fe, hfrom, rfl⟩ := h
                rw [FriendMessageEvent.from_json, handleKV_eq_ok] at hfrom
                obtain ⟨_, -, hfrom⟩ := except_bind_eq_ok.mp hfrom
                obtain ⟨ptv, hptv, hfrom⟩ := except_bind_eq_ok.mp hfrom
                obtain ⟨pt2, hpt2, hfrom⟩ := except_bind_eq_ok.mp hfrom
                repeat (obtain ⟨_, -, hfrom⟩ := except_bind_eq_ok.mp hfrom)
                rw [except_pure_eq_ok] at hfrom
                subst hfrom
                cases Except.ok.inj (hpt.symm.trans hptv)
                cases Except.ok.inj (hof.symm.trans hpt2)
                simp [BEvent.post_type, BEvent.registered_keys]
        | message_sent =>
          simp only [eventRegistry] at h
          rw [wrapDispatch_eq_ok] at h
          unfold MessageEvent.parse_event at h
          cases hmt : pyGetItem d "message_type" with
          | error e1 => simp only [hmt] at h; cases e1 <;> simp at h
          | ok mv =>
            simp only [hmt] at h
            cases hmof : MessageType.ofJValue mv with
            | error e1 => simp only [hmof] at h; cases e1 <;> simp at h
            | ok mt =>
              simp only [hmof] at h
              cases mt with
              | group =>
                rw [wrapDispatch_eq_ok, except_map_eq_ok] at h
                obtain ⟨ge, hfrom, rfl⟩ := h
                rw [GroupMessageEvent.from_json, handleKV_eq_ok] at hfrom
                obtain ⟨_, -, hfrom⟩ := except_bind_eq_ok.mp hfrom
                obtain ⟨ptv, hptv, hfrom⟩ := except_bind_eq_ok.mp hfrom
                obtain ⟨pt2, hpt2, hfrom⟩ := except_bind_eq_ok.mp hfrom
                repeat (obtain ⟨_, -, hfrom⟩ := except_bind_eq_ok.mp hfrom)
                rw [except_pure_eq_ok] at hfrom
                subst hfrom
                cases Except.ok.inj (hpt.symm.trans hptv)
                cases Except.ok.inj (hof.symm.trans hpt2)
                simp [BEvent.post_type, BEvent.registered_keys]
              | private_ =>
                rw [wrapDispatch_eq_ok, except_map_eq_ok] at h
                obtain ⟨fe, hfrom, rfl⟩ := h
                rw [FriendMessageEvent.from_json, handleKV_eq_ok] at hfrom
                obtain ⟨_, -, hfrom⟩ := except_bind_eq_ok.mp hfrom
                obtain ⟨ptv, hptv, hfrom⟩ := except_bind_eq_ok.mp hfrom
                obtain ⟨pt2, hpt2, hfrom⟩ := except_bind_eq_ok.mp hfrom
                repeat (obtain ⟨_, -, hfrom⟩ := except_bind_eq_ok.mp hfrom)
                rw [except_pure_eq_ok] at hfrom
                subst hfrom
                cases Except.ok.inj (hpt.symm.trans hptv)
                cases Except.ok.inj (hof.symm.trans hpt2)
                simp [BEvent.post_type, BEvent.registered_keys]
  · intro d n h
    unfold NoticeEvent.parse_event at h
    cases hnt : pyGetItem d "notice_type" with
    | error e1 => simp only [hnt] at h; cases e1 <;> simp at h
    | ok v =>
      simp only [hnt] at h
      cases hnof : NoticeType.ofJValue v with
      | none => simp only [hnof] at h; simp at h
      | some nt =>
        simp only [hnof] at h
        rw [wrapDispatch_eq_ok] at h
        cases nt <;>
          · first
              | rw [GroupUploadNoticeEvent.from_json, handleK_eq_ok] at h
              | rw [GroupAdminNoticeEvent.from_json, handleKV_eq_ok] at h
              | rw [GroupDecreaseNoticeEvent.from_json, handleKV_eq_ok] at h
              | rw [GroupIncreaseNoticeEvent.from_json, handleKV_eq_ok] at h
              | rw [GroupBanNoticeEvent.from_json, handleKV_eq_ok] at h
              | rw [GroupRecallNoticeEvent.from_json, handleK_eq_ok] at h
              | rw [GroupCardNoticeEvent.from_json, handleK_eq_ok] at h
              | rw [GroupMsgEmojiLikeNoticeEvent.from_json, handleK_eq_ok] at h
              | rw [FriendAddNoticeEvent.from_json, handleK_eq_ok] at h
              | rw [FriendRecallNoticeEvent.from_json, handleK_eq_ok] at h
              | rw [LuckyKingNoticeEvent.from_json, handleK_eq_ok] at h
              | rw [EssenceNoticeEvent.from_json, handleKV_eq_ok] at h
              | rw [HonorNoticeEvent.from_json, handleK_eq_ok] at h
              | rw [PokeNoticeEvent.from_json, handleKV_eq_ok] at h
            repeat (obtain ⟨_, -, h⟩ := except_bind_eq_ok.mp h)
            rw [except_pure_eq_ok] at h
            subst h
            rfl
  · intro d r h
    unfold RequestEvent.parse_event at h
    cases hrt : pyGetItem d "request_type" with
    | error e1 => simp only [hrt] at h; cases e1 <;> simp at h
    | ok v =>
      simp only [hrt] at h
      cases hrof : RequestType.ofJValue v with
      | none => simp only [hrof] at h; simp at h
      | some rt =>
        simp only [hrof] at h
        rw [wrapDispatch_eq_ok] at h
        cases rt <;>
          · first
              | rw [FriendRequestEvent.from_json, handleK_eq_ok] at h
              | rw [GroupRequestEvent.from_json, handleKV_eq_ok] at h
            repeat (obtain ⟨_, -, h⟩ := except_bind_eq_ok.mp h)
            rw [except_pure_eq_ok] at h
            subst h
            rfl

/-- Claim C9 witnessed on a decoded heartbeat event, a decoded
group-admin notice and a decoded friend request. -/
theorem C9_post_type_matches_registration_witness :
    (BEvent.heartbeat ⟨111, 111, PostType.meta, MetaType.heartbeat, ⟨true, true⟩,
        .int 300000⟩).post_type ∈
      (BEvent.heartbeat ⟨111, 111, PostType.meta, MetaType.heartbeat, ⟨true, true⟩,
        .int 300000⟩).registered_keys ∧
    (NEvent.mk 1 2 PostType.notice NoticeType.group_admin
        (NPayload.groupAdmin 3 4 GroupAdminType.set)).post_type = PostType.notice ∧
    (REvent.mk 1 2 PostType.request RequestType.friend "f" 3 "c"
        RPayload.friendReq).post_type = PostType.request :=
  ⟨C9_post_type_matches_registration.1
      (.obj [("time", .int 111), ("self_id", .int 111), ("post_type", .str "meta_event"),
             ("meta_event_type", .str "heartbeat"),
             ("status", .obj [("online", .bool true), ("good", .bool true)]),
             ("interval", .int 300000)])
      (BEvent.heartbeat ⟨111, 111, PostType.meta, MetaType.heartbeat, ⟨true, true⟩,
        .int 300000⟩) rfl,
   C9_post_type_matches_registration.2.1
      (.obj [("time", .int 1), ("self_id", .int 2), ("notice_type", .str "group_admin"),
             ("group_id", .int 3), ("user_id", .int 4), ("sub_type", .str "set")])
      (NEvent.mk 1 2 PostType.notice NoticeType.group_admin
        (NPayload.groupAdmin 3 4 GroupAdminType.set)) rfl,
   C9_post_type_matches_registration.2.2
      (.obj [("time", .int 1), ("self_id", .int 2), ("request_type", .str "friend"),
             ("flag", .str "f"), ("user_id", .int 3), ("comment", .str "c")])
      (REvent.mk 1 2 PostType.request RequestType.friend "f" 3 "c"
        RPayload.friendReq) rfl⟩

/-! ## Claim C4 -/

/-- The decode-side required fields of each variant: the keys whose
absence makes the variant's `from_json` raise. -/
def ElementType.requiredFields : ElementType → List String
  | .text => ["text"]
  | .at_ => ["qq"]
  | .reply => ["id"]
  | .face => ["id"]
  | .mface => ["emojiId", "emojiPackageId"]
  | .dice => ["result"]
  | .rps => ["result"]
  | .poke => ["type", "id"]
  | .image => ["file"]
  | .record => ["file"]
  | .video => ["file"]
  | .file => ["file"]
  | .json => ["data"]
  | .music => []
  | .forward => ["id"]

/-- Claim C4 counterexample: the dice variant.  Decoding demands the
required field `result` (`DiceElementData.from_json` raises on its
absence), yet re-encoding emits the empty data object, so the round
trip does not agree with the input on the required field subset. -/
theorem C4_counterexample :
    Element.parse_element (.obj [("type", .str "dice"),
        ("data", .obj [("result", .str "1")])]) =
      .ok (Element.dice ⟨some (.str "1")⟩) ∧
    Element.data_to_json (Element.dice ⟨some (.str "1")⟩) = .obj [] ∧
    jlookup ([] : List (String × JValue)) "result" = none := ⟨rfl, rfl, rfl⟩

/-- Claim C4 (amended): for every registered `ElementType` except
`dice` and `rps` (whose sole required decode field `result` is
receive-only and dropped by `to_json`), `mface` (whose required values
are re-emitted under snake-case keys instead of the camel-case wire
keys) and `music` (which cannot be decoded at all), decoding a
well-formed payload of that type and re-encoding it yields a data
object that agrees with the input on that variant's required field
subset; optional receive-only fields are dropped by design. -/
theorem C4_amended :
    ∀ (et : ElementType), et ≠ .dice → et ≠ .rps → et ≠ .mface → et ≠ .music →
    ∀ (ds : List (String × JValue)) (e : Element),
      Element.parse_element (.obj [("type", .str et.value), ("data", .obj ds)]) = .ok e →
      ∃ out, Element.data_to_json e = .obj out ∧
        ∀ k ∈ et.requiredFields, jlookup out k = jlookup ds k := by
  intro et h1 h2 h3 h4 ds e h
  rw [parse_element_obj_eq] at h
  cases et with
  | dice => exact absurd rfl h1
  | rps => exact absurd rfl h2
  | mface => exact absurd rfl h3
  | music => exact absurd rfl h4
  | text =>
    simp only [ElementType.value] at h
    simp only [parseElementFuel] at h
    simp only [show jlookup [("type", JValue.str "text"), ("data", JValue.obj ds)] "type" =
        some (JValue.str "text") from rfl] at h
    simp only [show ElementType.ofJValue (JValue.str "text") = some ElementType.text
        from rfl] at h
    simp only [show jlookup [("type", JValue.str "text"), ("data", JValue.obj ds)] "data" =
        some (JValue.obj ds) from rfl] at h
    rw [wrapDispatch_eq_ok, except_map_eq_ok] at h
    obtain ⟨td, hfrom, rfl⟩ := h
    simp only [TextElementData.from_json] at hfrom
    cases hk : jlookup ds "text" with
    | none => simp only [hk] at hfrom; simp at hfrom
    | some v =>
      simp only [hk] at hfrom
      cases v with
      | str s =>
        cases Except.ok.inj hfrom
        refine ⟨[("text", JValue.str s)], rfl, ?_⟩
        intro k hkm
        simp only [ElementType.requiredFields, List.mem_singleton] at hkm
        subst hkm
        rw [hk]
        rfl
      | int n => simp at hfrom
      | bool b => simp at hfrom
      | null => simp at hfrom
      | arr xs => simp at hfrom
      | obj f2 => simp at hfrom
  | at_ =>
    simp only [ElementType.value] at h
    simp only [parseElementFuel] at h
    simp only [show jlookup [("type", JValue.str "at"), ("data", JValue.obj ds)] "type" =
        some (JValue.str "at") from rfl] at h
    simp only [show ElementType.ofJValue (JValue.str "at") = some ElementType.at_
        from rfl] at h
    simp only [show jlookup [("type", JValue.str "at"), ("data", JValue.obj ds)] "data" =
        some (JValue.obj ds) from rfl] at h
    rw [wrapDispatch_eq_ok, except_map_eq_ok] at h
    obtain ⟨td, hfrom, rfl⟩ := h
    simp only [AtElementData.from_json] at hfrom
    cases hk : jlookup ds "qq" with
    | none => simp only [hk] at hfrom; simp at hfrom
    | some v =>
      simp only [hk] at hfrom
      cases v with
      | str s =>
        cases Except.ok.inj hfrom
        refine ⟨[("qq", JValue.str s)], rfl, ?_⟩
        intro k hkm
        simp only [ElementType.requiredFields, List.mem_singleton] at hkm
        subst hkm
        rw [hk]
        rfl
      | int n => simp at hfrom
      | bool b => simp at hfrom
      | null => simp at hfrom
      | arr xs => simp at hfrom
      | obj f2 => simp at hfrom
  | reply =>
    simp only [ElementType.value] at h
    simp only [parseElementFuel] at h
    simp only [show jlookup [("type", JValue.str "reply"), ("data", JValue.obj ds)] "type" =
        some (JValue.str "reply") from rfl] at h
    simp only [show ElementType.ofJValue (JValue.str "reply") = some ElementType.reply
        from rfl] at h
    simp only [show jlookup [("type", JValue.str "reply"), ("data", JValue.obj ds)] "data" =
        some (JValue.obj ds) from rfl] at h
    rw [wrapDispatch_eq_ok, except_map_eq_ok] at h
    obtain ⟨td, hfrom, rfl⟩ := h
    simp only [ReplyElementData.from_json] at hfrom
    cases hk : jlookup ds "id" with
    | none => simp only [hk] at hfrom; simp at hfrom
    | some v =>
      simp only [hk] at hfrom
      cases v with
      | str s =>
        cases Except.ok.inj hfrom
        refine ⟨[("id", JValue.str s)], rfl, ?_⟩
        intro k hkm
        simp only [ElementType.requiredFields, List.mem_singleton] at hkm
        subst hkm
        rw [hk]
        rfl
      | int n => simp at hfrom
      | bool b => simp at hfrom
      | null => simp at hfrom
      | arr xs => simp at hfrom
      | obj f2 => simp at hfrom
  | face =>
    simp only [ElementType.value] at h
    simp only [parseElementFuel] at h
    simp only [show jlookup [("type", JValue.str "face"), ("data", JValue.obj ds)] "type" =
        some (JValue.str "face") from rfl] at h
    simp only [show ElementType.ofJValue (JValue.str "face") = some ElementType.face
        from rfl] at h
    simp only [show jlookup [("type", JValue.str "face"), ("data", JValue.obj ds)] "data" =
        some (JValue.obj ds) from rfl] at h
    rw [wrapDispatch_eq_ok, except_map_eq_ok] at h
    obtain ⟨td, hfrom, rfl⟩ := h
    simp only [FaceElementData.from_json] at hfrom
    cases hk : jlookup ds "id" with
    | none => simp only [hk] at hfrom; simp at hfrom
    | some v =>
      simp only [hk] at hfrom
      cases v with
      | str s =>
        cases Except.ok.inj hfrom
        refine ⟨[("id", JValue.str s)], rfl, ?_⟩
        intro k hkm
        simp only [ElementType.requiredFields, List.mem_singleton] at hkm
        subst hkm
        rw [hk]
        rfl
      | int n => simp at hfrom
      | bool b => simp at hfrom
      | null => simp at hfrom
      | arr xs => simp at hfrom
      | obj f2 => simp at hfrom
  | poke =>
    simp only [ElementType.value] at h
    simp only [parseElementFuel] at h
    simp only [show jlookup [("type", JValue.str "poke"), ("data", JValue.obj ds)] "type" =
        some (JValue.str "poke") from rfl] at h
    simp only [show ElementType.ofJValue (JValue.str "poke") = some ElementType.poke
        from rfl] at h
    simp only [show jlookup [("type", JValue.str "poke"), ("data", JValue.obj ds)] "data" =
        some (JValue.obj ds) from rfl] at h
    rw [wrapDispatch_eq_ok, except_map_eq_ok] at h
    obtain ⟨td, hfrom, rfl⟩ := h
    simp only [PokeElementData.from_json] at hfrom
    cases hk1 : jlookup ds "type" with
    | none => simp only [hk1] at hfrom; simp at hfrom
    | some tv =>
      simp only [hk1] at hfrom
      cases hk2 : jlookup ds "id" with
      | none => simp only [hk2] at hfrom; simp at hfrom
      | some iv =>
        simp only [hk2] at hfrom
        cases tv with
        | str ts =>
          cases iv with
          | str is =>
            cases Except.ok.inj hfrom
            refine ⟨[("type", JValue.str ts), ("id", JValue.str is)], rfl, ?_⟩
            intro k hkm
            simp only [ElementType.requiredFields, List.mem_cons,
              List.mem_singleton, List.not_mem_nil, or_false] at hkm
            rcases hkm with rfl | rfl
            · rw [hk1]
              rfl
            · rw [hk2]
              rfl
          | int n => simp at hfrom
          | bool b => simp at hfrom
          | null => simp at hfrom
          | arr xs => simp at hfrom
          | obj f2 => simp at hfrom
        | int n => cases iv <;> simp at hfrom
        | bool b => cases iv <;> simp at hfrom
        | null => cases iv <;> simp at hfrom
        | arr xs => cases iv <;> simp at hfrom
        | obj f2 => cases iv <;> simp at hfrom
  | image =>
    simp only [ElementType.value] at h
    simp only [parseElementFuel] at h
    simp only [show jlookup [("type", JValue.str "image"), ("data", JValue.obj ds)] "type" =
        some (JValue.str "image") from rfl] at h
    simp only [show ElementType.ofJValue (JValue.str "image") = some ElementType.image
        from rfl] at h
    simp only [show jlookup [("type", JValue.str "image"), ("data", JValue.obj ds)] "data" =
        some (JValue.obj ds) from rfl] at h
    rw [wrapDispatch_eq_ok, except_map_eq_ok] at h
    obtain ⟨td, hfrom, rfl⟩ := h
    simp only [ImageElementData.from_json] at hfrom
    cases hk : jlookup ds "file" with
    | none => simp only [hk] at hfrom; simp at hfrom
    | some v =>
      simp only [hk] at hfrom
      cases v with
      | str s =>
        cases Except.ok.inj hfrom
        refine ⟨_, rfl, ?_⟩
        intro k hkm
        simp only [ElementType.requiredFields, List.mem_singleton] at hkm
        subst hkm
        rw [hk]
        rfl
      | int n => simp at hfrom
      | bool b => simp at hfrom
      | null => simp at hfrom
      | arr xs => simp at hfrom
      | obj f2 => simp at hfrom
  | record =>
    simp only [ElementType.value] at h
    simp only [parseElementFuel] at h
    simp only [show jlookup [("type", JValue.str "record"), ("data", JValue.obj ds)] "type" =
        some (JValue.str "record") from rfl] at h
    simp only [show ElementType.ofJValue (JValue.str "record") = some ElementType.record
        from rfl] at h
    simp only [show jlookup [("type", JValue.str "record"), ("data", JValue.obj ds)] "data" =
        some (JValue.obj ds) from rfl] at h
    rw [wrapDispatch_eq_ok, except_map_eq_ok] at h
    obtain ⟨td, hfrom, rfl⟩ := h
    simp only [RecordElementData.from_json] at hfrom
    cases hk : jlookup ds "file" with
    | none => simp only [hk] at hfrom; simp at hfrom
    | some v =>
      simp only [hk] at hfrom
      cases v with
      | str s =>
        cases Except.ok.inj hfrom
        refine ⟨[("file", JValue.str s)], rfl, ?_⟩
        intro k hkm
        simp only [ElementType.requiredFields, List.mem_singleton] at hkm
        subst hkm
        rw [hk]
        rfl
      | int n => simp at hfrom
      | bool b => simp at hfrom
      | null => simp at hfrom
      | arr xs => simp at hfrom
      | obj f2 => simp at hfrom
  | video =>
    simp only [ElementType.value] at h
    simp only [parseElementFuel] at h
    simp only [show jlookup [("type", JValue.str "video"), ("data", JValue.obj ds)] "type" =
        some (JValue.str "video") from rfl] at h
    simp only [show ElementType.ofJValue (JValue.str "video") = some ElementType.video
        from rfl] at h
    simp only [show jlookup [("type", JValue.str "video"), ("data", JValue.obj ds)] "data" =
        some (JValue.obj ds) from rfl] at h
    rw [wrapDispatch_eq_ok, except_map_eq_ok] at h
    obtain ⟨td, hfrom, rfl⟩ := h
    simp only [VideoElementData.from_json] at hfrom
    cases hk : jlookup ds "file" with
    | none => simp only [hk] at hfrom; simp at hfrom
    | some v =>
      simp only [hk] at hfrom
      cases v with
      | str s =>
        cases Except.ok.inj hfrom
        refine ⟨_, rfl, ?_⟩
        intro k hkm
        simp only [ElementType.requiredFields, List.mem_singleton] at hkm
        subst hkm
        rw [hk]
        rfl
      | int n => simp at hfrom
      | bool b => simp at hfrom
      | null => simp at hfrom
      | arr xs => simp at hfrom
      | obj f2 => simp at hfrom
  | file =>
    simp only [ElementType.value] at h
    simp only [parseElementFuel] at h
    simp only [show jlookup [("type", JValue.str "file"), ("data", JValue.obj ds)] "type" =
        some (JValue.str "file") from rfl] at h
    simp only [show ElementType.ofJValue (JValue.str "file") = some ElementType.file
        from rfl] at h
    simp only [show jlookup [("type", JValue.str "file"), ("data", JValue.obj ds)] "data" =
        some (JValue.obj ds) from rfl] at h
    rw [wrapDispatch_eq_ok, except_map_eq_ok] at h
    obtain ⟨td, hfrom, rfl⟩ := h
    simp only [FileElementData.from_json] at hfrom
    cases hk : jlookup ds "file" with
    | none => simp only [hk] at hfrom; simp at hfrom
    | some v =>
      simp only [hk] at hfrom
      cases v with
      | str s =>
        cases Except.ok.inj hfrom
        refine ⟨_, rfl, ?_⟩
        intro k hkm
        simp only [ElementType.requiredFields, List.mem_singleton] at hkm
        subst hkm
        rw [hk]
        rfl
      | int n => simp at hfrom
      | bool b => simp at hfrom
      | null => simp at hfrom
      | arr xs => simp at hfrom
      | obj f2 => simp at hfrom
  | json =>
    simp only [ElementType.value] at h
    simp only [parseElementFuel] at h
    simp only [show jlookup [("type", JValue.str "json"), ("data", JValue.obj ds)] "type" =
        some (JValue.str "json") from rfl] at h
    simp only [show ElementType.ofJValue (JValue.str "json") = some ElementType.json
        from rfl] at h
    simp only [show jlookup [("type", JValue.str "json"), ("data", JValue.obj ds)] "data" =
        some (JValue.obj ds) from rfl] at h
    rw [wrapDispatch_eq_ok, except_map_eq_ok] at h
    obtain ⟨td, hfrom, rfl⟩ := h
    simp only [JsonElementData.from_json] at hfrom
    cases hk : jlookup ds "data" with
    | none => simp only [hk] at hfrom; simp at hfrom
    | some v =>
      simp only [hk] at hfrom
      cases v with
      | str s =>
        cases Except.ok.inj hfrom
        refine ⟨[("data", JValue.str s)], rfl, ?_⟩
        intro k hkm
        simp only [ElementType.requiredFields, List.mem_singleton] at hkm
        subst hkm
        rw [hk]
        rfl
      | int n => simp at hfrom
      | bool b => simp at hfrom
      | null => simp at hfrom
      | arr xs => simp at hfrom
      | obj f2 => simp at hfrom
  | forward =>
    simp only [ElementType.value] at h
    simp only [parseElementFuel] at h
    simp only [show jlookup [("type", JValue.str "forward"), ("data", JValue.obj ds)] "type" =
        some (JValue.str "forward") from rfl] at h
    simp only [show ElementType.ofJValue (JValue.str "forward") = some ElementType.forward
        from rfl] at h
    simp only [show jlookup [("type", JValue.str "forward"), ("data", JValue.obj ds)] "data" =
        some (JValue.obj ds) from rfl] at h
    rw [wrapDispatch_eq_ok] at h
    cases hcon : jget ds "content" with
    | none =>
      simp only [hcon] at h
      cases hid2 : jlookup ds "id" with
      | none => simp only [hid2] at h; simp at h
      | some v =>
        simp only [hid2] at h
        cases v with
        | str s =>
          cases Except.ok.inj h
          refine ⟨[("id", JValue.str s)], rfl, ?_⟩
          intro k hkm
          simp only [ElementType.requiredFields, List.mem_singleton] at hkm
          subst hkm
          rw [hid2]
          rfl
        | int n => simp at h
        | bool b => simp at h
        | null => simp at h
        | arr xs => simp at h
        | obj f2 => simp at h
    | some c =>
      simp only [hcon] at h
      cases hit : pyIterate c with
      | error e1 => simp only [hit] at h; simp at h
      | ok items =>
        simp only [hit] at h
        cases hcf : parseContentFuel
            (JValue.sizeF [("type", JValue.str "forward"), ("data", JValue.obj ds)])
            items with
        | error e1 => simp only [hcf] at h; simp at h
        | ok children =>
          simp only [hcf] at h
          cases hid2 : jlookup ds "id" with
          | none => simp only [hid2] at h; simp at h
          | some v =>
            simp only [hid2] at h
            cases v with
            | str s =>
              cases Except.ok.inj h
              refine ⟨[("id", JValue.str s)], rfl, ?_⟩
              intro k hkm
              simp only [ElementType.requiredFields, List.mem_singleton] at hkm
              subst hkm
              rw [hid2]
              rfl
            | int n => simp at h
            | bool b => simp at h
            | null => simp at h
            | arr xs => simp at h
            | obj f2 => simp at h

/-- Claim C4 amended, witnessed on the image test payload of
`tests/element_test.py`. -/
theorem C4_amended_witness :
    ∃ out,
      Element.data_to_json (Element.image ⟨"123.jpg", some (.str "123"),
        some (.str "[饿了]"), some (.int 7), some (.str "17552"), none, none, none⟩) =
        .obj out ∧
      ∀ k ∈ ElementType.image.requiredFields,
        jlookup out k =
          jlookup [("summary", JValue.str "[饿了]"), ("file", JValue.str "123.jpg"),
                   ("sub_type", JValue.int 7), ("url", JValue.str "123"),
                   ("file_size", JValue.str "17552")] k :=
  C4_amended ElementType.image (by decide) (by decide) (by decide) (by decide)
    [("summary", JValue.str "[饿了]"), ("file", JValue.str "123.jpg"),
     ("sub_type", JValue.int 7), ("url", JValue.str "123"),
     ("file_size", JValue.str "17552")]
    (Element.image ⟨"123.jpg", some (.str "123"), some (.str "[饿了]"), some (.int 7),
      some (.str "17552"), none, none, none⟩) rfl
